import Mathlib

set_option linter.unusedVariables false

/-
Verification development for the EDA plotting module
(src/BA/src/visualization/plots.py).

The module is embedded shallowly:
* a pandas DataFrame is a list of rows over named columns, each cell a
  `Val` (NaN, a rational number, or a string);
* every statistic is computed exactly over ℚ.  The standard deviation,
  Pearson correlation and fitted-KDE evaluation involve real square
  roots / exponentials, which ℚ does not have; those maps are taken as
  explicit parameters (`sq`, `kdeF`) so every theorem below holds for
  the true transcendental functions in particular;
* each plotting function is embedded as a function producing the list
  of its observable effects (log lines, text-file writes, image-file
  writes, figure open/close events) in source order.  `fig.savefig`
  may raise (e.g. on a full disk); this is modelled by a boolean `ok`
  parameter of `save_plot`: when `ok = false` the trace ends with
  `Eff.raised` and nothing after the raise happens, mirroring an
  uncaught exception.
* output paths keep the file names; the configured directory prefixes
  (config.FIGURES_DIR / config.REPORTS_DIR) are elided, as is the
  python list interpolation and quoting inside some log messages.
-/

namespace BA

/-- A pandas cell: missing (NaN), numeric, or a string. -/
inductive Val where
  | na : Val
  | num (q : ℚ) : Val
  | str (s : String) : Val
deriving DecidableEq, Repr

abbrev Row := List Val

/-- A DataFrame: named columns and rows of cells. -/
structure DataFrame where
  cols : List String
  rows : List Row
deriving DecidableEq, Repr

def isNA : Val → Bool
  | .na => true
  | _ => false

/-- Numeric view of a cell (`None` for NaN or a string). -/
def toQ : Val → Option ℚ
  | .num q => some q
  | _ => none

/-- Cell access `df[c]` for one row; NaN when the column is absent. -/
def cellOf (df : DataFrame) (r : Row) (c : String) : Val :=
  r.getD (df.cols.indexOf c) .na

/-- `all(col in df.columns for col in cs)`. -/
def hasCols (df : DataFrame) (cs : List String) : Bool :=
  cs.all (fun c => df.cols.contains c)

/-- `df.dropna(subset=cs)`: keep rows with no NaN in any column of `cs`. -/
def dropna (df : DataFrame) (cs : List String) : DataFrame :=
  ⟨df.cols, df.rows.filter (fun r => cs.all (fun c => !isNA (cellOf df r c)))⟩

/-- First-appearance deduplication (pandas `Series.unique`). -/
def dedupFA {α : Type} [DecidableEq α] (l : List α) : List α :=
  l.foldl (fun acc x => if x ∈ acc then acc else acc ++ [x]) []

/-- `df[c].unique()` in order of first appearance. -/
def uniqueVals (df : DataFrame) (c : String) : List Val :=
  dedupFA (df.rows.map (fun r => cellOf df r c))

/-- Column assignment `df[c] = f(row)`: replace the column when it
exists, otherwise append it. -/
def setCol (df : DataFrame) (c : String) (f : Row → Val) : DataFrame :=
  if df.cols.contains c then
    ⟨df.cols, df.rows.map (fun r => r.set (df.cols.indexOf c) (f r))⟩
  else
    ⟨df.cols ++ [c], df.rows.map (fun r => r ++ [f r])⟩

/-- NaN-propagating subtraction of cells. -/
def vsub : Val → Val → Val
  | .num a, .num b => .num (a - b)
  | _, _ => .na

/-- NaN-propagating addition of cells. -/
def vadd : Val → Val → Val
  | .num a, .num b => .num (a + b)
  | _, _ => .na

def qsum (l : List ℚ) : ℚ := l.foldr (· + ·) 0

def qmin : List ℚ → ℚ
  | [] => 0
  | x :: xs => xs.foldl min x

def qmax : List ℚ → ℚ
  | [] => 0
  | x :: xs => xs.foldl max x

/-- Insertion into a ≤-sorted list of rationals. -/
def insQ (x : ℚ) : List ℚ → List ℚ
  | [] => [x]
  | y :: ys => if x ≤ y then x :: y :: ys else y :: insQ x ys

def sortQ (l : List ℚ) : List ℚ := l.foldr insQ []

/-- Arithmetic mean; NaN on an empty list. -/
def meanV (l : List ℚ) : Val :=
  if l.length = 0 then .na else .num (qsum l / (l.length : ℚ))

/-- Unbiased sample variance (pandas uses ddof = 1). -/
def sampleVar (l : List ℚ) : ℚ :=
  let m := qsum l / (l.length : ℚ)
  qsum (l.map (fun x => (x - m) ^ 2)) / ((l.length : ℚ) - 1)

/-- Sample standard deviation: `sq` stands for the real square root
(ℚ is not closed under it, so it is a parameter).  NaN for fewer than
two observations, as in pandas. -/
def stdV (sq : ℚ → ℚ) (l : List ℚ) : Val :=
  if l.length ≤ 1 then .na else .num (sq (sampleVar l))

/-- Median of a list (pandas `median`). -/
def medianV (l : List ℚ) : Val :=
  if l.length = 0 then .na
  else
    let s := sortQ l
    let n := l.length
    if n % 2 = 1 then .num (s.getD (n / 2) 0)
    else .num ((s.getD (n / 2 - 1) 0 + s.getD (n / 2) 0) / 2)

def countV (l : List ℚ) : Val := .num (l.length : ℚ)

def minV : List ℚ → Val
  | [] => .na
  | x :: xs => .num (xs.foldl min x)

def maxV : List ℚ → Val
  | [] => .na
  | x :: xs => .num (xs.foldl max x)

/-- Key of one row under a list of group-by columns. -/
def rowKey (df : DataFrame) (ks : List String) (r : Row) : List Val :=
  ks.map (cellOf df r)

/-- Distinct group keys in order of first appearance.  (pandas sorts
group keys; no claim below depends on the key order of the
intermediate grouped frame, only on counts, membership and the later
explicit reindex / `order=` arguments.) -/
def uniqueKeys (df : DataFrame) (ks : List String) : List (List Val) :=
  dedupFA (df.rows.map (rowKey df ks))

/-- The metric values of one group (non-numeric cells are skipped, as
the views only aggregate numeric metric columns). -/
def groupVals (df : DataFrame) (ks : List String) (k : List Val)
    (metric : String) : List ℚ :=
  (df.rows.filter (fun r => decide (rowKey df ks r = k))).filterMap
    (fun r => toQ (cellOf df r metric))

/-- `df.groupby(ks)[metric].agg(aggs).reset_index()`: one row per
distinct key, key columns followed by one column per aggregate. -/
def groupbyAgg (df : DataFrame) (ks : List String) (metric : String)
    (aggs : List (String × (List ℚ → Val))) : DataFrame :=
  ⟨ks ++ aggs.map (·.1),
   (uniqueKeys df ks).map
     (fun k => k ++ aggs.map (fun a => a.2 (groupVals df ks k metric)))⟩

/-- The two derived bound columns
`grouped["lower_bound"] = grouped["mean"] - grouped["std"]` and
`grouped["upper_bound"] = grouped["mean"] + grouped["std"]`. -/
def withBounds (g : DataFrame) : DataFrame :=
  let g1 := setCol g "lower_bound"
    (fun r => vsub (cellOf g r "mean") (cellOf g r "std"))
  setCol g1 "upper_bound"
    (fun r => vadd (cellOf g1 r "mean") (cellOf g1 r "std"))

/-- `set_index([k1,k2]).reindex(MultiIndex.from_product([d1,d2])).reset_index()`
for a grouped frame whose first two columns are the keys: one row per
element of the cross product, all-NaN statistics where the key pair is
absent from the grouped frame. -/
def reindexProduct2 (g : DataFrame) (d1 d2 : List Val) : DataFrame :=
  ⟨g.cols,
   d1.flatMap (fun a => d2.map (fun b =>
     match g.rows.find? (fun r => decide (r.take 2 = [a, b])) with
     | some r => r
     | none => [a, b] ++ List.replicate (g.cols.length - 2) Val.na))⟩

/-- The pairs `[a, b]` of the cross product of two domains. -/
def keyPairs (d1 d2 : List Val) : List (List Val) :=
  d1.flatMap (fun a => d2.map (fun b => [a, b]))

end BA

namespace BA

/-- Log levels used by the module. -/
inductive LogLvl where
  | info | warning | error
deriving DecidableEq, Repr

/-- What a rendered chart shows (enough structure for the claims:
the plotted frame, the axis columns, and an explicit category order
where the source passes one). -/
inductive ImageData where
  | bar (data : DataFrame) (x y hue : String) (ord : Option (List Val))
  | countp (data : DataFrame) (x hue : String) (ord : List Val)
  | histHue (data : DataFrame) (x hue : String) (bins : ℕ)
  | histVals (values : List ℚ) (bins : ℕ)
  | histDodge (data : DataFrame) (x hue : String)
  | violin (data : DataFrame) (x y : String)
  | box (data : DataFrame) (x y : String)
  | line (data : DataFrame) (x y hue : String)
  | heat (data : DataFrame)
  | corr (m : DataFrame)
deriving DecidableEq, Repr

/-- Observable effects of one call, in source order. -/
inductive Eff where
  | log (lvl : LogLvl) (msg : String)
  | writeText (path : String) (title : String) (content : DataFrame)
  | openFig
  | writeImage (path : String) (img : ImageData)
  | closeFig
  | raised
deriving DecidableEq, Repr

/-- `save_plot`: `fig.savefig(...)` then `plt.close(fig)` then an info
log.  When the write fails (`ok = false`) the exception propagates
before the close call, so the trace ends at `raised`. -/
def save_plot (ok : Bool) (filename : String) (img : ImageData) : List Eff :=
  if ok then
    [.writeImage filename img, .closeFig,
     .log .info ("Plot saved to: " ++ filename)]
  else [.raised]

/-- `_save_dataframe_as_text`: write the rendered table, then an info
log. -/
def save_dataframe_as_text (df : DataFrame) (filename : String)
    (title : String) : List Eff :=
  [.writeText filename title df, .log .info ("Table data saved to: " ++ filename)]

/-- The x-axis categories seaborn displays for a categorical plot:
the explicit `order=` when given, else the values observed in the
data. -/
def barXCats (data : DataFrame) (x : String) (ord : Option (List Val)) :
    List Val :=
  match ord with
  | some o => o
  | none => uniqueVals data x

def imgXCats : ImageData → Option (List Val)
  | .bar data x _ _ ord => some (barXCats data x ord)
  | .countp _ _ _ ord => some ord
  | _ => none

/-- Python list interpolation of column names in log messages
(quoting elided). -/
def pyList (l : List String) : String := "[" ++ ", ".intercalate l ++ "]"

/-- Python `str.replace("_", " ").title()`. -/
def pyTitle (s : String) : String :=
  " ".intercalate (((s.replace "_" " ").split (· = ' ')).map String.capitalize)

end BA

namespace BA

/-- A store of frame objects: python assignment into a frame is a
mutation of the object a name refers to.  Views receive their input
frame by reference (an index); everything they allocate is appended. -/
abbrev Store := List DataFrame

def emptyDF : DataFrame := ⟨[], []⟩

def storeGet (s : Store) (i : ℕ) : DataFrame := s.getD i emptyDF

/-- The fixed time-period domain of the time-and-event view. -/
def allPeriods : List Val :=
  [.str "Before Event", .str "During Event", .str "After Event",
   .str "Outside Window"]

/-- The aggregate list `["mean", "std", "median", "count"]` of the two
metric views. -/
def aggsMSMC (sq : ℚ → ℚ) : List (String × (List ℚ → Val)) :=
  [("mean", meanV), ("std", stdV sq), ("median", medianV), ("count", countV)]

/-- The full aggregation table the time-and-event view writes and
plots: group, add bounds, reindex to the four fixed periods crossed
with the observed events. -/
def timeEventTable (sq : ℚ → ℚ) (df : DataFrame) (metric : String) :
    DataFrame :=
  let dff := dropna df [metric, "event_name", "time_period"]
  reindexProduct2
    (withBounds (groupbyAgg dff ["time_period", "event_name"] metric (aggsMSMC sq)))
    allPeriods (uniqueVals dff "event_name")

/-- `plot_average_metric_by_time_and_event`, store-level: the grouped
frame is allocated and then mutated in place by the two bound-column
assignments; the input frame is only read. -/
def plot_average_metric_by_time_and_eventS (sq : ℚ → ℚ) (ok : Bool)
    (s : Store) (i : ℕ) (metric fpre title y_label : String) :
    Store × List Eff :=
  let df := storeGet s i
  if hasCols df [metric, "event_name", "time_period"] = false then
    (s, [.log .error ("Missing one or more required columns (" ++
      pyList [metric, "event_name", "time_period"] ++ ") for " ++ metric ++
      " plot. Skipping.")])
  else
    let df_filtered := dropna df [metric, "event_name", "time_period"]
    if df_filtered.rows.isEmpty then
      (s, [.log .warning ("No valid data to plot average " ++ metric ++
        " after filtering NaNs. Skipping plot.")])
    else
      let all_events := uniqueVals df_filtered "event_name"
      let j := s.length
      let s1 := s ++ [groupbyAgg df_filtered ["time_period", "event_name"]
        metric (aggsMSMC sq)]
      let g1 := storeGet s1 j
      let s2 := s1.set j (setCol g1 "lower_bound"
        (fun r => vsub (cellOf g1 r "mean") (cellOf g1 r "std")))
      let g2 := storeGet s2 j
      let s3 := s2.set j (setCol g2 "upper_bound"
        (fun r => vadd (cellOf g2 r "mean") (cellOf g2 r "std")))
      let grouped := reindexProduct2 (storeGet s3 j) allPeriods all_events
      (s3,
        save_dataframe_as_text grouped
          (fpre ++ "_by_time_period_and_event.txt")
          ("Average " ++ pyTitle metric ++
            " by Time Period and Event (incl. Range)")
        ++ [.openFig]
        ++ save_plot ok (fpre ++ "_by_time_period_and_event_extended.png")
          (.bar grouped "time_period" "mean" "event_name" none))

def plot_average_metric_by_time_and_event (sq : ℚ → ℚ) (ok : Bool)
    (df : DataFrame) (metric fpre title y_label : String) : List Eff :=
  (plot_average_metric_by_time_and_eventS sq ok [df] 0 metric fpre title
    y_label).2

/-- Optional allow-list restriction on post types; python treats both
`None` and an empty list as no filtering (`if selected_types:`). -/
def applySel (sel : Option (List Val)) (df : DataFrame) : DataFrame :=
  match sel with
  | none => df
  | some [] => df
  | some l =>
    ⟨df.cols, df.rows.filter (fun r => l.contains (cellOf df r "post_type"))⟩

/-- The full aggregation table of the type-and-event view. -/
def typeEventTable (sq : ℚ → ℚ) (df : DataFrame) (metric : String)
    (sel : Option (List Val)) : DataFrame :=
  let dff := applySel sel (dropna df [metric, "event_name", "post_type"])
  reindexProduct2
    (withBounds (groupbyAgg dff ["post_type", "event_name"] metric (aggsMSMC sq)))
    (uniqueVals dff "post_type") (uniqueVals dff "event_name")

/-- `plot_metric_by_event_and_type`, store-level. -/
def plot_metric_by_event_and_typeS (sq : ℚ → ℚ) (ok : Bool)
    (s : Store) (i : ℕ) (metric title filename : String)
    (sel : Option (List Val)) : Store × List Eff :=
  let df := storeGet s i
  if hasCols df [metric, "event_name", "post_type"] = false then
    (s, [.log .error ("Missing one or more required columns (" ++
      pyList [metric, "event_name", "post_type"] ++ ") for " ++ metric ++
      " by post type plot. Skipping.")])
  else
    let df_filtered := applySel sel (dropna df [metric, "event_name", "post_type"])
    if df_filtered.rows.isEmpty then
      (s, [.log .warning ("No valid data to plot average " ++ metric ++
        " by post type after filtering NaNs/types. Skipping plot.")])
    else
      let post_types := uniqueVals df_filtered "post_type"
      let events := uniqueVals df_filtered "event_name"
      let j := s.length
      let s1 := s ++ [groupbyAgg df_filtered ["post_type", "event_name"]
        metric (aggsMSMC sq)]
      let g1 := storeGet s1 j
      let s2 := s1.set j (setCol g1 "lower_bound"
        (fun r => vsub (cellOf g1 r "mean") (cellOf g1 r "std")))
      let g2 := storeGet s2 j
      let s3 := s2.set j (setCol g2 "upper_bound"
        (fun r => vadd (cellOf g2 r "mean") (cellOf g2 r "std")))
      let grouped := reindexProduct2 (storeGet s3 j) post_types events
      (s3,
        save_dataframe_as_text grouped
          (metric ++ "_by_post_type_and_event.txt")
          (pyTitle metric ++ " by Post Type and Event")
        ++ [.openFig]
        ++ save_plot ok filename
          (.bar grouped "post_type" "mean" "event_name" none))

def plot_metric_by_event_and_type (sq : ℚ → ℚ) (ok : Bool)
    (df : DataFrame) (metric title filename : String)
    (sel : Option (List Val)) : List Eff :=
  (plot_metric_by_event_and_typeS sq ok [df] 0 metric title filename sel).2

/-- The non-null values of one column in row order
(`df[feature].dropna()`; the feature columns are numeric by the data
contract, so string cells do not occur there). -/
def colValsQ (df : DataFrame) (c : String) : List ℚ :=
  (df.rows.map (fun r => cellOf df r c)).filterMap toQ

def allSame : List ℚ → Bool
  | [] => true
  | x :: xs => xs.all (fun y => y == x)

/-- `np.linspace a b n`. -/
def linspace (a b : ℚ) (n : ℕ) : List ℚ :=
  (List.range n).map (fun i : ℕ => a + (b - a) * (i : ℚ) / ((n : ℚ) - 1))

/-- Distinct non-null value count, pandas `Series.nunique()`. -/
def nuniqueCol (df : DataFrame) (c : String) : ℕ :=
  (dedupFA ((df.rows.map (fun r => cellOf df r c)).filter
    (fun v => !isNA v))).length

/-- The one-row summary table of the feature-distribution view. -/
def featureSummaryTable (sq : ℚ → ℚ) (values : List ℚ) : DataFrame :=
  ⟨["Mean", "Median", "Std", "Count", "Lower Bound (Mean - Std)",
    "Upper Bound (Mean + Std)"],
   [[meanV values, medianV values, stdV sq values, countV values,
     vsub (meanV values) (stdV sq values),
     vadd (meanV values) (stdV sq values)]]⟩

/-- The sampled density curve: 200 grid points over the observed
range; `kdeF` stands for the fitted Gaussian-kernel density estimator
evaluation (transcendental, so a parameter). -/
def kdeTable (kdeF : List ℚ → ℚ → ℚ) (values : List ℚ) : DataFrame :=
  ⟨["x", "kde_density"],
   (linspace (qmin values) (qmax values) 200).map
     (fun x => [.num x, .num (kdeF values x)])⟩

/-- The histogram branch of the feature-distribution view: split by
event when the frame carries more than one distinct event and rows
survive NaN-dropping, otherwise a single series (possibly after a
warning). -/
def featHistBranch (df : DataFrame) (feature : String) (values : List ℚ)
    (bin_count : ℕ) : List Eff × ImageData :=
  if df.cols.contains "event_name" &&
      decide (1 < nuniqueCol df "event_name") then
    let df_filtered := dropna df [feature, "event_name"]
    if df_filtered.rows.isEmpty then
      ([.log .warning ("No valid data for feature " ++ feature ++
        " with event_name after filtering NaNs. Plotting without hue.")],
       .histVals values bin_count)
    else ([], .histHue df_filtered feature "event_name" bin_count)
  else ([], .histVals values bin_count)

/-- `plot_feature_distribution`.  `scipy.stats.gaussian_kde` raises a
linear-algebra error when the data covariance is singular, i.e. when
all observations are equal; that exception propagates (`raised`). -/
def plot_feature_distribution (sq : ℚ → ℚ) (kdeF : List ℚ → ℚ → ℚ)
    (ok : Bool) (df : DataFrame) (feature title x_label : String)
    (bin_count : ℕ) (fpre : String) : List Eff :=
  if df.cols.contains feature = false then
    [.log .error ("Feature column " ++ feature ++
      " not found in DataFrame. Skipping plot.")]
  else
    let values := colValsQ df feature
    if values.isEmpty then
      [.log .warning ("No valid data for feature " ++ feature ++
        ". Skipping distribution plot.")]
    else
      let summaryPart := save_dataframe_as_text (featureSummaryTable sq values)
        (fpre ++ feature ++ "_summary.txt")
        (feature ++ " Distribution Summary")
      if 1 < values.length then
        if allSame values then summaryPart ++ [.raised]
        else
          summaryPart
          ++ save_dataframe_as_text (kdeTable kdeF values)
            (fpre ++ feature ++ "_kde_curve.txt")
            (feature ++ " KDE Curve Data")
          ++ [.openFig] ++ (featHistBranch df feature values bin_count).1
          ++ save_plot ok (fpre ++ feature ++ "_histogram_extended.png")
            (featHistBranch df feature values bin_count).2
      else
        summaryPart
        ++ [.log .warning ("Not enough data points to generate KDE curve for "
            ++ feature ++ ".")]
        ++ [.openFig] ++ (featHistBranch df feature values bin_count).1
        ++ save_plot ok (fpre ++ feature ++ "_histogram_extended.png")
          (featHistBranch df feature values bin_count).2

/-- The aggregate list `["count","mean","median","std","min","max"]`
of the distribution-comparison view. -/
def aggsDist (sq : ℚ → ℚ) : List (String × (List ℚ → Val)) :=
  [("count", countV), ("mean", meanV), ("median", medianV),
   ("std", stdV sq), ("min", minV), ("max", maxV)]

/-- The per-event statistics table of the distribution-comparison
view. -/
def distCompTable (sq : ℚ → ℚ) (df : DataFrame) (feature : String) :
    DataFrame :=
  withBounds (groupbyAgg (dropna df [feature, "event_name"])
    ["event_name"] feature (aggsDist sq))

/-- `plot_distribution_comparison`, store-level.  Note that the
grouped statistics are written to text before the `plot_type` value is
examined. -/
def plot_distribution_comparisonS (sq : ℚ → ℚ) (ok : Bool)
    (s : Store) (i : ℕ) (feature title y_label fpre plot_type : String) :
    Store × List Eff :=
  let df := storeGet s i
  if hasCols df [feature, "event_name"] = false then
    (s, [.log .error ("Missing one or more required columns (" ++
      pyList [feature, "event_name"] ++
      ") for distribution comparison plot. Skipping.")])
  else
    let data := dropna df [feature, "event_name"]
    if data.rows.isEmpty then
      (s, [.log .warning ("No valid data for feature " ++ feature ++
        " after filtering NaNs. Skipping distribution comparison plot.")])
    else
      let j := s.length
      let s1 := s ++ [groupbyAgg data ["event_name"] feature (aggsDist sq)]
      let g1 := storeGet s1 j
      let s2 := s1.set j (setCol g1 "lower_bound"
        (fun r => vsub (cellOf g1 r "mean") (cellOf g1 r "std")))
      let g2 := storeGet s2 j
      let s3 := s2.set j (setCol g2 "upper_bound"
        (fun r => vadd (cellOf g2 r "mean") (cellOf g2 r "std")))
      let grouped := storeGet s3 j
      let textPart := save_dataframe_as_text grouped
        (fpre ++ feature ++ "_" ++ plot_type ++ "_stats.txt")
        (feature ++ " Distribution by Event (" ++ pyTitle plot_type ++
          " Plot Basis)")
      if plot_type = "violin" then
        (s3, textPart ++ [.openFig] ++
          save_plot ok (fpre ++ feature ++ "_" ++ plot_type ++ "_extended.png")
            (.violin data "event_name" feature))
      else if plot_type = "box" then
        (s3, textPart ++ [.openFig] ++
          save_plot ok (fpre ++ feature ++ "_" ++ plot_type ++ "_extended.png")
            (.box data "event_name" feature))
      else
        (s3, textPart ++ [.openFig,
          .log .error ("Invalid plot_type " ++ plot_type ++
            ". Must be box or violin. Skipping plot."),
          .closeFig])

def plot_distribution_comparison (sq : ℚ → ℚ) (ok : Bool)
    (df : DataFrame) (feature title y_label fpre plot_type : String) :
    List Eff :=
  (plot_distribution_comparisonS sq ok [df] 0 feature title y_label fpre
    plot_type).2

/-- `plot_posting_behavior_hist`: only an emptiness check and a
column-presence check; rows that are NaN in the plotted columns are
never dropped. -/
def plot_posting_behavior_hist (ok : Bool) (df : DataFrame)
    (x_label hue_label title filename : String) : List Eff :=
  if df.rows.isEmpty then
    [.log .warning ("DataFrame is empty, skipping histogram plot for " ++
      title ++ ".")]
  else if !(df.cols.contains x_label && df.cols.contains hue_label) then
    [.log .error ("Missing required columns " ++ x_label ++ " or " ++
      hue_label ++ " for histogram plot. Skipping.")]
  else
    [.openFig] ++ save_plot ok filename (.histDodge df x_label hue_label)

/-- `plot_posting_behavior_heatmap`: renders a pre-aggregated frame;
only an emptiness check. -/
def plot_posting_behavior_heatmap (ok : Bool) (df : DataFrame)
    (title filename : String) : List Eff :=
  if df.rows.isEmpty then
    [.log .warning ("DataFrame is empty, skipping heatmap plot for " ++
      title ++ ".")]
  else [.openFig] ++ save_plot ok filename (.heat df)

/-- `plot_score_development`: emptiness and column checks only; no
NaN dropping. -/
def plot_score_development (ok : Bool) (df : DataFrame)
    (x_label y_label hue_label title filename : String) : List Eff :=
  if df.rows.isEmpty then
    [.log .warning ("DataFrame is empty, skipping score development plot for "
      ++ title ++ ".")]
  else if hasCols df [x_label, y_label, hue_label] = false then
    [.log .error ("Missing one or more required columns (" ++
      pyList [x_label, y_label, hue_label] ++
      ") for score development plot. Skipping.")]
  else
    [.openFig] ++ save_plot ok filename (.line df x_label y_label hue_label)

end BA

namespace BA

/-- The built-in fallback list of numeric column names of the
correlation view. -/
def additionalNumericalCols : List String :=
  ["comment_score", "post_score", "post_num_comments", "upvote_ratio",
   "compound_sentiment", "word_count"]

/-- pandas numeric dtype under default inference: an empty frame and
any string-bearing column are object dtype (not numeric); an all-NaN
or numeric column is a float dtype (numeric). -/
def isNumericCol (df : DataFrame) (c : String) : Bool :=
  !df.rows.isEmpty &&
    df.rows.all (fun r => match cellOf df r c with
      | .str _ => false
      | _ => true)

/-- The usable columns of the correlation view: the union (with
python set deduplication) of the two configured feature lists and the
built-in fallback list, restricted to columns present and numeric. -/
def availableNumericalCols (numF boolF : List String) (df : DataFrame) :
    List String :=
  (dedupFA (numF ++ boolF ++ additionalNumericalCols)).filter
    (fun c => df.cols.contains c && isNumericCol df c)

/-- The observation pairs with both coordinates non-null (pandas
pairwise-complete correlation). -/
def pairedVals (df : DataFrame) (c1 c2 : String) : List (ℚ × ℚ) :=
  df.rows.filterMap (fun r =>
    match toQ (cellOf df r c1), toQ (cellOf df r c2) with
    | some a, some b => some (a, b)
    | _, _ => none)

/-- Pearson correlation of paired observations; `sq` stands for the
real square root of the variance product.  NaN when a variance is
zero, as in pandas. -/
def pearsonV (sq : ℚ → ℚ) (ps : List (ℚ × ℚ)) : Val :=
  if ps.isEmpty then .na
  else
    let n : ℚ := ps.length
    let mx := qsum (ps.map (·.1)) / n
    let my := qsum (ps.map (·.2)) / n
    let sxx := qsum (ps.map (fun p => (p.1 - mx) ^ 2))
    let syy := qsum (ps.map (fun p => (p.2 - my) ^ 2))
    let sxy := qsum (ps.map (fun p => (p.1 - mx) * (p.2 - my)))
    if sxx * syy = 0 then .na else .num (sxy / sq (sxx * syy))

/-- `df[cols].corr(method="pearson")`. -/
def corrMatrix (sq : ℚ → ℚ) (df : DataFrame) (cols : List String) :
    DataFrame :=
  ⟨cols, cols.map (fun c1 => cols.map (fun c2 =>
    pearsonV sq (pairedVals df c1 c2)))⟩

/-- `plot_pearson_correlation`. -/
def plot_pearson_correlation (sq : ℚ → ℚ) (ok : Bool)
    (numF boolF : List String) (df : DataFrame) (filename : String) :
    List Eff :=
  if df.rows.isEmpty then
    [.log .warning "DataFrame is empty, skipping Pearson correlation analysis."]
  else
    let avail := availableNumericalCols numF boolF df
    if avail.length < 2 then
      [.log .warning "Not enough numerical columns available for correlation analysis (need at least 2). Skipping plot."]
    else
      [.log .info "\n--- Calculating Pearson Correlations ---",
       .log .info "Correlation Matrix",
       .openFig]
      ++ save_plot ok filename (.corr (corrMatrix sq df avail))

def dayNames : List String :=
  ["Monday", "Tuesday", "Wednesday", "Thursday", "Friday", "Saturday",
   "Sunday"]

def weekDays : List Val := dayNames.map Val.str

/-- Timestamps are modelled as epoch-second rationals, on which
`pd.to_datetime` acts as the identity (NaN stays NaT). -/
def toDatetime (v : Val) : Val := v

/-- `Series.dt.day_name()`: epoch day 0 (1970-01-01) was a Thursday,
index 3 with Monday = 0. -/
def dayNameOf : Val → Val
  | .num q => .str (dayNames.getD (((Int.floor (q / (86400 : ℚ)) + 3) % 7).toNat) "Monday")
  | _ => .na

/-- The filtered copy of the day-of-week view after its two column
assignments (`to_datetime` and `day_name`). -/
def engPrepped (df : DataFrame) (time_col engagement_col : String) :
    DataFrame :=
  let base := dropna df [time_col, engagement_col, "event_name"]
  let b1 := setCol base time_col (fun r => toDatetime (cellOf base r time_col))
  setCol b1 "day_of_week" (fun r => dayNameOf (cellOf b1 r time_col))

/-- The (day, event) mean-engagement table of the day-of-week view:
built by grouping only, with no reindexing to the full week. -/
def engagementTable (df : DataFrame) (time_col engagement_col : String) :
    DataFrame :=
  groupbyAgg (engPrepped df time_col engagement_col)
    ["day_of_week", "event_name"] engagement_col [(engagement_col, meanV)]

/-- `plot_engagement_per_day`, store-level: the filtered copy is
allocated and then mutated by the two column assignments
(`to_datetime`, `day_name`); the input frame is only read. -/
def plot_engagement_per_dayS (sq : ℚ → ℚ) (ok : Bool)
    (s : Store) (i : ℕ) (time_col engagement_col filename : String) :
    Store × List Eff :=
  let df := storeGet s i
  if hasCols df [time_col, engagement_col, "event_name"] = false then
    (s, [.log .error ("Missing one or more required columns (" ++
      pyList [time_col, engagement_col, "event_name"] ++
      ") for engagement per day plot. Skipping.")])
  else
    let base := dropna df [time_col, engagement_col, "event_name"]
    if base.rows.isEmpty then
      (s, [.log .warning
        "No valid data for engagement per day after filtering NaNs. Skipping plot."])
    else
      let j := s.length
      let s1 := s ++ [base]
      let b1 := storeGet s1 j
      let s2 := s1.set j (setCol b1 time_col
        (fun r => toDatetime (cellOf b1 r time_col)))
      let b2 := storeGet s2 j
      let s3 := s2.set j (setCol b2 "day_of_week"
        (fun r => dayNameOf (cellOf b2 r time_col)))
      let grouped := groupbyAgg (storeGet s3 j) ["day_of_week", "event_name"]
        engagement_col [(engagement_col, meanV)]
      (s3,
        [.openFig]
        ++ save_plot ok filename
          (.bar grouped "day_of_week" engagement_col "event_name"
            (some weekDays)))

def plot_engagement_per_day (sq : ℚ → ℚ) (ok : Bool) (df : DataFrame)
    (time_col engagement_col filename : String) : List Eff :=
  (plot_engagement_per_dayS sq ok [df] 0 time_col engagement_col filename).2

end BA

namespace BA

def valName : Val → String
  | .str s => s
  | _ => ""

def valLtB : Val → Val → Bool
  | .na, .na => false
  | .na, _ => true
  | .num _, .na => false
  | .num a, .num b => decide (a < b)
  | .num _, .str _ => true
  | .str a, .str b => decide (a < b)
  | .str _, _ => false

def insV (x : Val) : List Val → List Val
  | [] => [x]
  | y :: ys => if valLtB x y then x :: y :: ys else y :: insV x ys

/-- Sorting of categorical keys (pandas `unstack` sorts its index and
columns). -/
def sortVals (l : List Val) : List Val := l.foldr insV []

/-- The combined counts-and-percentages table of the inline
time-period count plot in `generate_all_eda_plots`: one row per event
(sorted), count columns for the sorted periods first, then the
percentage columns with the percent suffix (the rendered text drops
the event index column). -/
def timePeriodCountsTable (df : DataFrame) : DataFrame :=
  let evs := sortVals (uniqueVals df "event_name")
  let pers := sortVals (uniqueVals df "time_period")
  let cnt := fun (e p : Val) =>
    ((df.rows.filter (fun r => decide (cellOf df r "event_name" = e) &&
      decide (cellOf df r "time_period" = p))).length : ℚ)
  let tot := fun (e : Val) =>
    ((df.rows.filter (fun r => decide (cellOf df r "event_name" = e))).length : ℚ)
  ⟨pers.map valName ++ pers.map (fun p => valName p ++ " (%)"),
   evs.map (fun e =>
     pers.map (fun p => Val.num (cnt e p)) ++
     pers.map (fun p => Val.num (cnt e p / tot e * 100)))⟩

/-- The inline time-period count-plot block of
`generate_all_eda_plots`. -/
def timePeriodBlock (ok : Bool) (df : DataFrame) : List Eff :=
  if df.cols.contains "time_period" && df.cols.contains "event_name" then
    let dff := dropna df ["time_period", "event_name"]
    if dff.rows.isEmpty = false then
      [.openFig]
      ++ save_dataframe_as_text (timePeriodCountsTable dff)
        "comment_distribution_time_periods_table.txt"
        "Comment Distribution Across Time Periods by Event (Counts and Percentages)"
      ++ save_plot ok "comment_distribution_time_periods.png"
        (.countp dff "time_period" "event_name" allPeriods)
    else
      [.log .warning
        "No valid data for the comment distribution across time periods plot after filtering."]
  else
    [.log .warning
      "Missing time_period or event_name column for the comment distribution across time periods plot. Skipping."]

/-- Sequencing of the orchestration: when an uncaught exception ends a
call (`raised`), the remaining calls of the run never happen. -/
def seqT (t rest : List Eff) : List Eff :=
  if Eff.raised ∈ t then t else t ++ rest

/-- The four post types of the filtered word-count call. -/
def selectedFourTypes : List Val :=
  [.str "Player Transfer", .str "Other", .str "Tournament Result",
   .str "Ranking Update"]

/-- The engagement-by-post-type block of `generate_all_eda_plots`. -/
def postTypeBlock (sq : ℚ → ℚ) (ok : Bool) (df : DataFrame) : List Eff :=
  if df.cols.contains "post_type" && df.cols.contains "event_name" then
    seqT (plot_metric_by_event_and_type sq ok df "comment_score"
      "Average Comment Score by Post Type and Event"
      "avg_comment_score_by_post_type.png" none)
    (seqT (plot_metric_by_event_and_type sq ok df "compound_sentiment"
      "Average Compound Sentiment by Post Type and Event"
      "avg_sentiment_by_post_type.png" none)
    (seqT (plot_metric_by_event_and_type sq ok df "word_count"
      "Average Word Count by Post Type and Event"
      "avg_word_count_by_post_type.png" none)
    (plot_metric_by_event_and_type sq ok df "word_count"
      "Average Word Count by Selected Post Types and Event"
      "filtered_avg_word_count_by_post_type_and_event.png"
      (some selectedFourTypes))))
  else
    [.log .warning
      "Missing post_type or event_name column for the engagement by post type plots. Skipping."]

/-- The engagement-per-day block of `generate_all_eda_plots`. -/
def engagementBlock (sq : ℚ → ℚ) (ok : Bool) (df : DataFrame) : List Eff :=
  if df.cols.contains "created_utc" && df.cols.contains "event_name" then
    seqT (plot_engagement_per_day sq ok df "created_utc" "comment_score"
      "avg_comment_score_by_day_of_week.png")
    (plot_engagement_per_day sq ok df "created_utc" "compound_sentiment"
      "avg_sentiment_by_day_of_week.png")
  else
    [.log .warning
      "Missing created_utc or event_name for engagement per day plots. Skipping."]

/-- `generate_all_eda_plots`: the fixed sequence of view calls, with
the exception-stops-the-run semantics of `seqT`. -/
def generate_all_eda_plots (sq : ℚ → ℚ) (kdeF : List ℚ → ℚ → ℚ)
    (ok : Bool) (numF boolF : List String) (df : DataFrame) : List Eff :=
  [.log .info "\n--- Generating Exploratory Data Analysis Plots ---"] ++
  if df.rows.isEmpty then
    [.log .warning "Input DataFrame is empty. Skipping all EDA plot generation."]
  else
    [.log .info "\n--- Generating Feature Distribution Plots ---"] ++
    seqT (plot_feature_distribution sq kdeF ok df "compound_sentiment"
      "Distribution of Compound Sentiment Score"
      "Compound Sentiment Score (-1 to 1)" 30 "dist_sentiment_")
    (seqT (plot_feature_distribution sq kdeF ok df "comment_score"
      "Distribution of Comment Score" "Comment Score" 50
      "dist_comment_score_")
    (seqT (plot_feature_distribution sq kdeF ok df "word_count"
      "Distribution of Comment Word Count" "Word Count" 50
      "dist_word_count_")
    ([.log .info "\n--- Generating Distribution Comparison Plots (Violin/Box) ---"] ++
    seqT (plot_distribution_comparison sq ok df "compound_sentiment"
      "Distribution of Compound Sentiment Score Across Events"
      "Compound Sentiment Score (-1 to 1)" "dist_comp_sentiment_" "violin")
    (seqT (plot_distribution_comparison sq ok df "comment_score"
      "Distribution of Comment Score Across Events" "Comment Score"
      "dist_comp_comment_score_" "violin")
    (seqT (plot_distribution_comparison sq ok df "word_count"
      "Distribution of Comment Word Count Across Events" "Word Count"
      "dist_comp_word_count_" "violin")
    ([.log .info "\n--- Generating Time Period Analysis Plots ---"] ++
    seqT (timePeriodBlock ok df)
    (seqT (plot_average_metric_by_time_and_event sq ok df
      "compound_sentiment" "avg_sentiment"
      "Average Compound Sentiment by Time Period and Event"
      "Average Compound Sentiment Score")
    (seqT (plot_average_metric_by_time_and_event sq ok df
      "comment_score" "avg_comment_score"
      "Average Comment Score by Time Period and Event"
      "Average Comment Score")
    ([.log .info "\n--- Generating Engagement by Post Type Plots ---"] ++
    seqT (postTypeBlock sq ok df)
    ([.log .info "\n--- Generating Pearson Correlation Matrix ---"] ++
    seqT (plot_pearson_correlation sq ok numF boolF df
      "pearson_correlation_matrix.png")
    ([.log .info "\n--- Generating Additional Specific Plots ---"] ++
    seqT (engagementBlock sq ok df)
    [.log .info "\n--- All EDA Plots Generated ---"])))))))))))

end BA

namespace BA

def isImage : Eff → Bool
  | .writeImage _ _ => true
  | _ => false

def isText : Eff → Bool
  | .writeText _ _ _ => true
  | _ => false

/-- The file-producing effects of a trace. -/
def writesOf (t : List Eff) : List Eff :=
  t.filter (fun e => isImage e || isText e)

def imageWrites (t : List Eff) : List Eff := t.filter isImage

/-- The successive contents written to one text path by a trace. -/
def textWrites (t : List Eff) (p : String) : List DataFrame :=
  t.filterMap (fun e => match e with
    | .writeText q _ c => if q = p then some c else none
    | _ => none)

def isOpenFig : Eff → Bool
  | .openFig => true
  | _ => false

def isCloseFig : Eff → Bool
  | .closeFig => true
  | _ => false

def nOpen (t : List Eff) : ℕ := (t.filter isOpenFig).length

def nClose (t : List Eff) : ℕ := (t.filter isCloseFig).length

/-- A trivial stand-in for the KDE evaluator, used to instantiate the
`kdeF` parameter at concrete inputs. -/
def kdeZero : List ℚ → ℚ → ℚ := fun _ _ => 0

/-- A concrete dataset whose timestamps cover a single weekday. -/
def dfDay1 : DataFrame :=
  ⟨["created_utc", "comment_score", "event_name"],
   [[.num 0, .num 1, .str "A"]]⟩

/-- A concrete dataset whose only row is NaN in its first column. -/
def dfHistNaN : DataFrame := ⟨["h", "g"], [[.na, .str "x"]]⟩

/-- A concrete one-row dataset with a feature and an event. -/
def dfOneEvent : DataFrame :=
  ⟨["comment_score", "event_name"], [[.num 1, .str "A"]]⟩

/-- A concrete dataset whose feature column is constant. -/
def dfConst : DataFrame := ⟨["f"], [[.num 5], [.num 5]]⟩

/-- A concrete dataset with two distinct feature values. -/
def dfTwoVals : DataFrame := ⟨["f"], [[.num 1], [.num 2]]⟩

/-- A concrete empty dataset carrying two fallback column names. -/
def dfEmptyNumeric : DataFrame := ⟨["comment_score", "post_score"], []⟩

/-- A concrete dataset with exactly one numeric column. -/
def dfOneNumeric : DataFrame :=
  ⟨["comment_score", "note"], [[.num 1, .str "a"]]⟩

/-- A concrete dataset with none of the required columns. -/
def dfMissing : DataFrame := ⟨["z"], [[.num 1]]⟩

/-- A concrete dataset with all required columns but only NaN rows. -/
def dfAllNaN : DataFrame :=
  ⟨["comment_score", "compound_sentiment", "word_count", "event_name",
    "time_period", "post_type", "created_utc"],
   [[.na, .na, .na, .na, .na, .na, .na]]⟩

/-- A concrete three-row dataset exercising all views. -/
def dfFull : DataFrame :=
  ⟨["comment_score", "compound_sentiment", "word_count", "event_name",
    "time_period", "post_type", "created_utc"],
   [[.num 1, .num 0, .num 3, .str "A", .str "Before Event", .str "Other",
     .num 0],
    [.num 3, .num 1, .num 5, .str "A", .str "Before Event", .str "Other",
     .num 86400],
    [.num 2, .num (-1), .num 4, .str "B", .str "During Event", .str "Link",
     .num 172800]]⟩

/-- A concrete nonempty single-column dataset. -/
def dfOneRow : DataFrame := ⟨["a"], [[.num 1]]⟩

end BA

namespace BA

theorem foldl_dedup_mem {α : Type} [DecidableEq α] (l acc : List α) (x : α) :
    (x ∈ l.foldl (fun acc x => if x ∈ acc then acc else acc ++ [x]) acc) ↔
      x ∈ acc ∨ x ∈ l := by
  induction l generalizing acc with
  | nil => simp
  | cons y l ih =>
    simp only [List.foldl_cons, ih, List.mem_cons]
    by_cases hy : y ∈ acc
    · simp only [if_pos hy]
      constructor
      · rintro (h | h)
        · exact Or.inl h
        · exact Or.inr (Or.inr h)
      · rintro (h | rfl | h)
        · exact Or.inl h
        · exact Or.inl hy
        · exact Or.inr h
    · simp only [if_neg hy, List.mem_append, List.mem_singleton]
      tauto

theorem mem_dedupFA {α : Type} [DecidableEq α] {l : List α} {x : α} :
    x ∈ dedupFA l ↔ x ∈ l := by
  unfold dedupFA
  rw [foldl_dedup_mem]
  simp

theorem storeGet_single (df : DataFrame) : storeGet [df] 0 = df := rfl

theorem storeGet_append_self (s : Store) (g : DataFrame) :
    storeGet (s ++ [g]) s.length = g := by
  simp [storeGet, List.getD, List.getElem?_append_right (le_refl s.length)]

theorem storeGet_set_self (s : Store) (j : ℕ) (g : DataFrame)
    (h : j < s.length) : storeGet (s.set j g) j = g := by
  simp [storeGet, List.getD, List.getElem?_set_self h]

theorem storeGet_set_ne (s : Store) (j i : ℕ) (g : DataFrame) (h : i ≠ j) :
    storeGet (s.set j g) i = storeGet s i := by
  simp [storeGet, List.getD, List.getElem?_set_ne (Ne.symm h)]

theorem storeGet_append_lt (s l2 : Store) (i : ℕ) (h : i < s.length) :
    storeGet (s ++ l2) i = storeGet s i := by
  simp [storeGet, List.getD, List.getElem?_append_left h]

end BA

namespace BA

theorem time_view_spec (sq : ℚ → ℚ) (ok : Bool) (df : DataFrame)
    (metric fpre title y_label : String)
    (h1 : hasCols df [metric, "event_name", "time_period"] = true)
    (h2 : (dropna df [metric, "event_name", "time_period"]).rows.isEmpty = false) :
    plot_average_metric_by_time_and_event sq ok df metric fpre title y_label =
      save_dataframe_as_text (timeEventTable sq df metric)
        (fpre ++ "_by_time_period_and_event.txt")
        ("Average " ++ pyTitle metric ++
          " by Time Period and Event (incl. Range)")
      ++ [.openFig]
      ++ save_plot ok (fpre ++ "_by_time_period_and_event_extended.png")
        (.bar (timeEventTable sq df metric) "time_period" "mean" "event_name"
          none) := by
  unfold plot_average_metric_by_time_and_event
    plot_average_metric_by_time_and_eventS timeEventTable withBounds
  simp only [storeGet_single, h1, h2, Bool.true_eq_false, if_false,
    Bool.false_eq_true, List.length_singleton]
  simp [storeGet, List.set]

theorem time_view_missing (sq : ℚ → ℚ) (ok : Bool) (df : DataFrame)
    (metric fpre title y_label : String)
    (h : hasCols df [metric, "event_name", "time_period"] = false) :
    plot_average_metric_by_time_and_event sq ok df metric fpre title y_label =
      [.log .error ("Missing one or more required columns (" ++
        pyList [metric, "event_name", "time_period"] ++ ") for " ++ metric ++
        " plot. Skipping.")] := by
  unfold plot_average_metric_by_time_and_event
    plot_average_metric_by_time_and_eventS
  simp [storeGet_single, h]

theorem time_view_empty (sq : ℚ → ℚ) (ok : Bool) (df : DataFrame)
    (metric fpre title y_label : String)
    (h1 : hasCols df [metric, "event_name", "time_period"] = true)
    (h2 : (dropna df [metric, "event_name", "time_period"]).rows.isEmpty = true) :
    plot_average_metric_by_time_and_event sq ok df metric fpre title y_label =
      [.log .warning ("No valid data to plot average " ++ metric ++
        " after filtering NaNs. Skipping plot.")] := by
  unfold plot_average_metric_by_time_and_event
    plot_average_metric_by_time_and_eventS
  simp [storeGet_single, h1, h2]

theorem type_view_spec (sq : ℚ → ℚ) (ok : Bool) (df : DataFrame)
    (metric title filename : String) (sel : Option (List Val))
    (h1 : hasCols df [metric, "event_name", "post_type"] = true)
    (h2 : (applySel sel (dropna df [metric, "event_name", "post_type"])).rows.isEmpty = false) :
    plot_metric_by_event_and_type sq ok df metric title filename sel =
      save_dataframe_as_text (typeEventTable sq df metric sel)
        (metric ++ "_by_post_type_and_event.txt")
        (pyTitle metric ++ " by Post Type and Event")
      ++ [.openFig]
      ++ save_plot ok filename
        (.bar (typeEventTable sq df metric sel) "post_type" "mean"
          "event_name" none) := by
  unfold plot_metric_by_event_and_type plot_metric_by_event_and_typeS
    typeEventTable withBounds
  simp only [storeGet_single, h1, h2, Bool.true_eq_false, if_false,
    Bool.false_eq_true, List.length_singleton]
  simp [storeGet, List.set]

theorem type_view_missing (sq : ℚ → ℚ) (ok : Bool) (df : DataFrame)
    (metric title filename : String) (sel : Option (List Val))
    (h : hasCols df [metric, "event_name", "post_type"] = false) :
    plot_metric_by_event_and_type sq ok df metric title filename sel =
      [.log .error ("Missing one or more required columns (" ++
        pyList [metric, "event_name", "post_type"] ++ ") for " ++ metric ++
        " by post type plot. Skipping.")] := by
  unfold plot_metric_by_event_and_type plot_metric_by_event_and_typeS
  simp [storeGet_single, h]

theorem type_view_empty (sq : ℚ → ℚ) (ok : Bool) (df : DataFrame)
    (metric title filename : String) (sel : Option (List Val))
    (h1 : hasCols df [metric, "event_name", "post_type"] = true)
    (h2 : (applySel sel (dropna df [metric, "event_name", "post_type"])).rows.isEmpty = true) :
    plot_metric_by_event_and_type sq ok df metric title filename sel =
      [.log .warning ("No valid data to plot average " ++ metric ++
        " by post type after filtering NaNs/types. Skipping plot.")] := by
  unfold plot_metric_by_event_and_type plot_metric_by_event_and_typeS
  simp [storeGet_single, h1, h2]

end BA

namespace BA

theorem dist_comp_missing (sq : ℚ → ℚ) (ok : Bool) (df : DataFrame)
    (feature title y_label fpre plot_type : String)
    (h : hasCols df [feature, "event_name"] = false) :
    plot_distribution_comparison sq ok df feature title y_label fpre plot_type =
      [.log .error ("Missing one or more required columns (" ++
        pyList [feature, "event_name"] ++
        ") for distribution comparison plot. Skipping.")] := by
  unfold plot_distribution_comparison plot_distribution_comparisonS
  simp [storeGet_single, h]

theorem dist_comp_empty (sq : ℚ → ℚ) (ok : Bool) (df : DataFrame)
    (feature title y_label fpre plot_type : String)
    (h1 : hasCols df [feature, "event_name"] = true)
    (h2 : (dropna df [feature, "event_name"]).rows.isEmpty = true) :
    plot_distribution_comparison sq ok df feature title y_label fpre plot_type =
      [.log .warning ("No valid data for feature " ++ feature ++
        " after filtering NaNs. Skipping distribution comparison plot.")] := by
  unfold plot_distribution_comparison plot_distribution_comparisonS
  simp [storeGet_single, h1, h2]

theorem dist_comp_violin (sq : ℚ → ℚ) (ok : Bool) (df : DataFrame)
    (feature title y_label fpre : String)
    (h1 : hasCols df [feature, "event_name"] = true)
    (h2 : (dropna df [feature, "event_name"]).rows.isEmpty = false) :
    plot_distribution_comparison sq ok df feature title y_label fpre "violin" =
      save_dataframe_as_text (distCompTable sq df feature)
        (fpre ++ feature ++ "_" ++ "violin" ++ "_stats.txt")
        (feature ++ " Distribution by Event (" ++ pyTitle "violin" ++
          " Plot Basis)")
      ++ [.openFig]
      ++ save_plot ok (fpre ++ feature ++ "_" ++ "violin" ++ "_extended.png")
        (.violin (dropna df [feature, "event_name"]) "event_name" feature) := by
  unfold plot_distribution_comparison plot_distribution_comparisonS
    distCompTable withBounds
  simp only [storeGet_single, h1, h2, Bool.true_eq_false, if_false,
    Bool.false_eq_true, List.length_singleton]
  simp [storeGet, List.set]

theorem dist_comp_bad_type (sq : ℚ → ℚ) (ok : Bool) (df : DataFrame)
    (feature title y_label fpre plot_type : String)
    (h1 : hasCols df [feature, "event_name"] = true)
    (h2 : (dropna df [feature, "event_name"]).rows.isEmpty = false)
    (h3 : plot_type ≠ "violin") (h4 : plot_type ≠ "box") :
    plot_distribution_comparison sq ok df feature title y_label fpre plot_type =
      save_dataframe_as_text (distCompTable sq df feature)
        (fpre ++ feature ++ "_" ++ plot_type ++ "_stats.txt")
        (feature ++ " Distribution by Event (" ++ pyTitle plot_type ++
          " Plot Basis)")
      ++ [.openFig,
        .log .error ("Invalid plot_type " ++ plot_type ++
          ". Must be box or violin. Skipping plot."),
        .closeFig] := by
  unfold plot_distribution_comparison plot_distribution_comparisonS
    distCompTable withBounds
  simp only [storeGet_single, h1, h2, h3, h4, Bool.true_eq_false, if_false,
    Bool.false_eq_true, List.length_singleton]
  simp [storeGet, List.set]

theorem engagement_missing (sq : ℚ → ℚ) (ok : Bool) (df : DataFrame)
    (time_col engagement_col filename : String)
    (h : hasCols df [time_col, engagement_col, "event_name"] = false) :
    plot_engagement_per_day sq ok df time_col engagement_col filename =
      [.log .error ("Missing one or more required columns (" ++
        pyList [time_col, engagement_col, "event_name"] ++
        ") for engagement per day plot. Skipping.")] := by
  unfold plot_engagement_per_day plot_engagement_per_dayS
  simp [storeGet_single, h]

theorem engagement_empty (sq : ℚ → ℚ) (ok : Bool) (df : DataFrame)
    (time_col engagement_col filename : String)
    (h1 : hasCols df [time_col, engagement_col, "event_name"] = true)
    (h2 : (dropna df [time_col, engagement_col, "event_name"]).rows.isEmpty = true) :
    plot_engagement_per_day sq ok df time_col engagement_col filename =
      [.log .warning
        "No valid data for engagement per day after filtering NaNs. Skipping plot."] := by
  unfold plot_engagement_per_day plot_engagement_per_dayS
  simp [storeGet_single, h1, h2]

theorem engagement_spec (sq : ℚ → ℚ) (ok : Bool) (df : DataFrame)
    (time_col engagement_col filename : String)
    (h1 : hasCols df [time_col, engagement_col, "event_name"] = true)
    (h2 : (dropna df [time_col, engagement_col, "event_name"]).rows.isEmpty = false) :
    plot_engagement_per_day sq ok df time_col engagement_col filename =
      [.openFig]
      ++ save_plot ok filename
        (.bar (engagementTable df time_col engagement_col) "day_of_week"
          engagement_col "event_name" (some weekDays)) := by
  unfold plot_engagement_per_day plot_engagement_per_dayS engagementTable
    engPrepped
  simp only [storeGet_single, h1, h2, Bool.true_eq_false, if_false,
    Bool.false_eq_true, List.length_singleton]
  simp [storeGet, List.set]

end BA

namespace BA

theorem feat_dist_missing (sq : ℚ → ℚ) (kdeF : List ℚ → ℚ → ℚ) (ok : Bool)
    (df : DataFrame) (feature title x_label : String) (bin_count : ℕ)
    (fpre : String) (h : df.cols.contains feature = false) :
    plot_feature_distribution sq kdeF ok df feature title x_label bin_count fpre =
      [.log .error ("Feature column " ++ feature ++
        " not found in DataFrame. Skipping plot.")] := by
  unfold plot_feature_distribution
  have h' : feature ∉ df.cols := by simpa using h
  simp [h']

theorem feat_dist_novals (sq : ℚ → ℚ) (kdeF : List ℚ → ℚ → ℚ) (ok : Bool)
    (df : DataFrame) (feature title x_label : String) (bin_count : ℕ)
    (fpre : String) (h1 : df.cols.contains feature = true)
    (h2 : colValsQ df feature = []) :
    plot_feature_distribution sq kdeF ok df feature title x_label bin_count fpre =
      [.log .warning ("No valid data for feature " ++ feature ++
        ". Skipping distribution plot.")] := by
  unfold plot_feature_distribution
  have h' : feature ∈ df.cols := by simpa using h1
  simp [h', h2]

theorem feat_dist_raise (sq : ℚ → ℚ) (kdeF : List ℚ → ℚ → ℚ) (ok : Bool)
    (df : DataFrame) (feature title x_label : String) (bin_count : ℕ)
    (fpre : String) (h1 : df.cols.contains feature = true)
    (h2 : 1 < (colValsQ df feature).length)
    (h3 : allSame (colValsQ df feature) = true) :
    plot_feature_distribution sq kdeF ok df feature title x_label bin_count fpre =
      save_dataframe_as_text (featureSummaryTable sq (colValsQ df feature))
        (fpre ++ feature ++ "_summary.txt")
        (feature ++ " Distribution Summary")
      ++ [.raised] := by
  unfold plot_feature_distribution
  have hne : (colValsQ df feature).isEmpty = false := by
    cases hv : colValsQ df feature with
    | nil => rw [hv] at h2; simp at h2
    | cons a l => simp
  have h' : feature ∈ df.cols := by simpa using h1
  simp [h', h2, h3, hne]

theorem feat_dist_kde (sq : ℚ → ℚ) (kdeF : List ℚ → ℚ → ℚ) (ok : Bool)
    (df : DataFrame) (feature title x_label : String) (bin_count : ℕ)
    (fpre : String) (h1 : df.cols.contains feature = true)
    (h2 : 1 < (colValsQ df feature).length)
    (h3 : allSame (colValsQ df feature) = false) :
    plot_feature_distribution sq kdeF ok df feature title x_label bin_count fpre =
      save_dataframe_as_text (featureSummaryTable sq (colValsQ df feature))
        (fpre ++ feature ++ "_summary.txt")
        (feature ++ " Distribution Summary")
      ++ save_dataframe_as_text (kdeTable kdeF (colValsQ df feature))
        (fpre ++ feature ++ "_kde_curve.txt")
        (feature ++ " KDE Curve Data")
      ++ [.openFig]
      ++ (featHistBranch df feature (colValsQ df feature) bin_count).1
      ++ save_plot ok (fpre ++ feature ++ "_histogram_extended.png")
        (featHistBranch df feature (colValsQ df feature) bin_count).2 := by
  unfold plot_feature_distribution
  have hne : (colValsQ df feature).isEmpty = false := by
    cases hv : colValsQ df feature with
    | nil => rw [hv] at h2; simp at h2
    | cons a l => simp
  have h' : feature ∈ df.cols := by simpa using h1
  simp [h', h2, h3, hne]

theorem feat_dist_short (sq : ℚ → ℚ) (kdeF : List ℚ → ℚ → ℚ) (ok : Bool)
    (df : DataFrame) (feature title x_label : String) (bin_count : ℕ)
    (fpre : String) (h1 : df.cols.contains feature = true)
    (h2 : (colValsQ df feature).isEmpty = false)
    (h3 : ¬(1 < (colValsQ df feature).length)) :
    plot_feature_distribution sq kdeF ok df feature title x_label bin_count fpre =
      save_dataframe_as_text (featureSummaryTable sq (colValsQ df feature))
        (fpre ++ feature ++ "_summary.txt")
        (feature ++ " Distribution Summary")
      ++ [.log .warning ("Not enough data points to generate KDE curve for "
          ++ feature ++ ".")]
      ++ [.openFig]
      ++ (featHistBranch df feature (colValsQ df feature) bin_count).1
      ++ save_plot ok (fpre ++ feature ++ "_histogram_extended.png")
        (featHistBranch df feature (colValsQ df feature) bin_count).2 := by
  unfold plot_feature_distribution
  have h' : feature ∈ df.cols := by simpa using h1
  simp [h', h2, h3]

theorem pearson_empty (sq : ℚ → ℚ) (ok : Bool) (numF boolF : List String)
    (df : DataFrame) (filename : String) (h : df.rows.isEmpty = true) :
    plot_pearson_correlation sq ok numF boolF df filename =
      [.log .warning "DataFrame is empty, skipping Pearson correlation analysis."] := by
  unfold plot_pearson_correlation
  simp [h]

theorem pearson_few (sq : ℚ → ℚ) (ok : Bool) (numF boolF : List String)
    (df : DataFrame) (filename : String) (h1 : df.rows.isEmpty = false)
    (h2 : (availableNumericalCols numF boolF df).length < 2) :
    plot_pearson_correlation sq ok numF boolF df filename =
      [.log .warning "Not enough numerical columns available for correlation analysis (need at least 2). Skipping plot."] := by
  unfold plot_pearson_correlation
  simp [h1, h2]

theorem pearson_spec (sq : ℚ → ℚ) (ok : Bool) (numF boolF : List String)
    (df : DataFrame) (filename : String) (h1 : df.rows.isEmpty = false)
    (h2 : ¬((availableNumericalCols numF boolF df).length < 2)) :
    plot_pearson_correlation sq ok numF boolF df filename =
      [.log .info "\n--- Calculating Pearson Correlations ---",
       .log .info "Correlation Matrix",
       .openFig]
      ++ save_plot ok filename
        (.corr (corrMatrix sq df (availableNumericalCols numF boolF df))) := by
  unfold plot_pearson_correlation
  simp [h1, h2]

end BA

namespace BA

theorem uniqueKeys_len {df : DataFrame} {ks : List String} {k : List Val}
    (h : k ∈ uniqueKeys df ks) : k.length = ks.length := by
  rw [uniqueKeys, mem_dedupFA] at h
  obtain ⟨r, hr, rfl⟩ := List.mem_map.mp h
  simp [rowKey]

theorem groupbyAgg_row {df : DataFrame} {ks : List String} {metric : String}
    {aggs : List (String × (List ℚ → Val))} {r : Row}
    (h : r ∈ (groupbyAgg df ks metric aggs).rows) :
    ∃ k, k ∈ uniqueKeys df ks ∧
      r = k ++ aggs.map (fun a => a.2 (groupVals df ks k metric)) := by
  simp only [groupbyAgg, List.mem_map] at h
  obtain ⟨k, hk, rfl⟩ := h
  exact ⟨k, hk, rfl⟩

theorem reindex_keys (g : DataFrame) (d1 d2 : List Val) :
    ((reindexProduct2 g d1 d2).rows).map (fun r => r.take 2) =
      keyPairs d1 d2 := by
  unfold reindexProduct2 keyPairs
  simp only [List.map_flatMap, List.map_map]
  apply List.flatMap_congr
  intro a _
  apply List.map_congr_left
  intro b _
  simp only [Function.comp_apply]
  cases hf : g.rows.find? (fun r => decide (r.take 2 = [a, b])) with
  | none =>
    simp only [hf]
    have h2 : ([a, b] : List Val).length = 2 := rfl
    rw [show (2 : ℕ) = ([a, b] : List Val).length from rfl]
    exact List.take_left _ _
  | some r0 =>
    simp only [hf]
    have := List.find?_some hf
    simpa using this

theorem keyPairs_length (d1 d2 : List Val) :
    (keyPairs d1 d2).length = d1.length * d2.length := by
  unfold keyPairs
  induction d1 with
  | nil => simp
  | cons a d1 ih => simp [ih, Nat.succ_mul, Nat.add_comm]

theorem reindex_rows_length (g : DataFrame) (d1 d2 : List Val) :
    (reindexProduct2 g d1 d2).rows.length = d1.length * d2.length := by
  have h := congrArg List.length (reindex_keys g d1 d2)
  rw [List.length_map] at h
  rw [h, keyPairs_length]

theorem reindex_mem_cases {g : DataFrame} {d1 d2 : List Val} {r : Row}
    (h : r ∈ (reindexProduct2 g d1 d2).rows) :
    r ∈ g.rows ∨
      ∃ a b, a ∈ d1 ∧ b ∈ d2 ∧
        g.rows.find? (fun r' => decide (r'.take 2 = [a, b])) = none ∧
        r = [a, b] ++ List.replicate (g.cols.length - 2) Val.na := by
  unfold reindexProduct2 at h
  simp only [List.mem_flatMap, List.mem_map] at h
  obtain ⟨a, ha, b, hb, hr⟩ := h
  cases hf : g.rows.find? (fun r' => decide (r'.take 2 = [a, b])) with
  | none =>
    rw [hf] at hr
    exact Or.inr ⟨a, b, ha, hb, hf, hr.symm⟩
  | some r0 =>
    rw [hf] at hr
    exact Or.inl (hr ▸ List.mem_of_find?_eq_some hf)

theorem find_none_of_not_obs {g : DataFrame} {a b : Val}
    (hno : ∀ r ∈ g.rows, r.take 2 ≠ [a, b]) :
    g.rows.find? (fun r' => decide (r'.take 2 = [a, b])) = none := by
  rw [List.find?_eq_none]
  intro r hr
  simp [hno r hr]

end BA

namespace BA

theorem groupbyAgg_wf (df : DataFrame) (ks : List String) (metric : String)
    (aggs : List (String × (List ℚ → Val))) :
    ∀ r ∈ (groupbyAgg df ks metric aggs).rows,
      r.length = (groupbyAgg df ks metric aggs).cols.length := by
  intro r h
  obtain ⟨k, hk, rfl⟩ := groupbyAgg_row h
  simp [groupbyAgg, uniqueKeys_len hk]

theorem cellOf_extend (g : DataFrame) (c2 : String) (rows2 : List Row)
    (r0 : Row) (x : Val) (c : String) (hc : c ∈ g.cols)
    (hlen : r0.length = g.cols.length) :
    cellOf ⟨g.cols ++ [c2], rows2⟩ (r0 ++ [x]) c = cellOf g r0 c := by
  unfold cellOf
  rw [List.indexOf_append_of_mem hc, List.getD_append]
  rw [hlen]
  exact List.indexOf_lt_length.mpr hc

theorem withBounds_mem {g : DataFrame} {r : Row}
    (h1 : g.cols.contains "lower_bound" = false)
    (h2 : g.cols.contains "upper_bound" = false)
    (h3 : "mean" ∈ g.cols) (h4 : "std" ∈ g.cols)
    (hwf : ∀ r0 ∈ g.rows, r0.length = g.cols.length)
    (h : r ∈ (withBounds g).rows) :
    ∃ r0, r0 ∈ g.rows ∧
      r = r0 ++ [vsub (cellOf g r0 "mean") (cellOf g r0 "std"),
        vadd (cellOf g r0 "mean") (cellOf g r0 "std")] := by
  have h1' : "lower_bound" ∉ g.cols := by simpa using h1
  have h2' : "upper_bound" ∉ g.cols := by simpa using h2
  unfold withBounds setCol at h
  simp [h1', h2', List.mem_append, List.mem_map] at h
  obtain ⟨r0, hr0, hre⟩ := h
  refine ⟨r0, hr0, ?_⟩
  rw [← hre]
  rw [cellOf_extend g _ _ r0 _ "mean" h3 (hwf r0 hr0),
    cellOf_extend g _ _ r0 _ "std" h4 (hwf r0 hr0)]

theorem withBounds_cols {g : DataFrame}
    (h1 : g.cols.contains "lower_bound" = false)
    (h2 : g.cols.contains "upper_bound" = false) :
    (withBounds g).cols = g.cols ++ ["lower_bound", "upper_bound"] := by
  have h1' : "lower_bound" ∉ g.cols := by simpa using h1
  have h2' : "upper_bound" ∉ g.cols := by simpa using h2
  unfold withBounds setCol
  simp [h1', h2']

theorem timeEvent_row (sq : ℚ → ℚ) (dff : DataFrame) (metric : String)
    {r : Row}
    (h : r ∈ (withBounds (groupbyAgg dff ["time_period", "event_name"] metric
      (aggsMSMC sq))).rows) :
    ∃ k1 k2, [k1, k2] ∈ uniqueKeys dff ["time_period", "event_name"] ∧
      r = (fun vals => [k1, k2, meanV vals, stdV sq vals, medianV vals,
          countV vals, vsub (meanV vals) (stdV sq vals),
          vadd (meanV vals) (stdV sq vals)])
        (groupVals dff ["time_period", "event_name"] [k1, k2] metric) := by
  obtain ⟨r0, hr0, hre⟩ := withBounds_mem (by rfl) (by rfl)
    (by simp [groupbyAgg, aggsMSMC]) (by simp [groupbyAgg, aggsMSMC])
    (groupbyAgg_wf _ _ _ _) h
  obtain ⟨k, hk, rfl⟩ := groupbyAgg_row hr0
  obtain ⟨k1, k2, rfl⟩ := List.length_eq_two.mp (uniqueKeys_len hk)
  refine ⟨k1, k2, hk, ?_⟩
  rw [hre]
  simp [aggsMSMC, cellOf, groupbyAgg, List.getD]

theorem typeEvent_row (sq : ℚ → ℚ) (dff : DataFrame) (metric : String)
    {r : Row}
    (h : r ∈ (withBounds (groupbyAgg dff ["post_type", "event_name"] metric
      (aggsMSMC sq))).rows) :
    ∃ k1 k2, [k1, k2] ∈ uniqueKeys dff ["post_type", "event_name"] ∧
      r = (fun vals => [k1, k2, meanV vals, stdV sq vals, medianV vals,
          countV vals, vsub (meanV vals) (stdV sq vals),
          vadd (meanV vals) (stdV sq vals)])
        (groupVals dff ["post_type", "event_name"] [k1, k2] metric) := by
  obtain ⟨r0, hr0, hre⟩ := withBounds_mem (by rfl) (by rfl)
    (by simp [groupbyAgg, aggsMSMC]) (by simp [groupbyAgg, aggsMSMC])
    (groupbyAgg_wf _ _ _ _) h
  obtain ⟨k, hk, rfl⟩ := groupbyAgg_row hr0
  obtain ⟨k1, k2, rfl⟩ := List.length_eq_two.mp (uniqueKeys_len hk)
  refine ⟨k1, k2, hk, ?_⟩
  rw [hre]
  simp [aggsMSMC, cellOf, groupbyAgg, List.getD]

theorem distComp_row (sq : ℚ → ℚ) (dff : DataFrame) (feature : String)
    {r : Row}
    (h : r ∈ (withBounds (groupbyAgg dff ["event_name"] feature
      (aggsDist sq))).rows) :
    ∃ e, [e] ∈ uniqueKeys dff ["event_name"] ∧
      r = (fun vals => [e, countV vals, meanV vals, medianV vals,
          stdV sq vals, minV vals, maxV vals,
          vsub (meanV vals) (stdV sq vals),
          vadd (meanV vals) (stdV sq vals)])
        (groupVals dff ["event_name"] [e] feature) := by
  obtain ⟨r0, hr0, hre⟩ := withBounds_mem (by rfl) (by rfl)
    (by simp [groupbyAgg, aggsDist]) (by simp [groupbyAgg, aggsDist])
    (groupbyAgg_wf _ _ _ _) h
  obtain ⟨k, hk, rfl⟩ := groupbyAgg_row hr0
  obtain ⟨e, rfl⟩ := List.length_eq_one.mp (uniqueKeys_len hk)
  refine ⟨e, hk, ?_⟩
  rw [hre]
  simp [aggsDist, cellOf, groupbyAgg, List.getD]

end BA

namespace BA

theorem engagement_keys (df : DataFrame) (tc ec : String) :
    (engagementTable df tc ec).rows.map (fun r => r.take 2) =
      uniqueKeys (engPrepped df tc ec) ["day_of_week", "event_name"] := by
  unfold engagementTable groupbyAgg
  rw [List.map_map]
  conv_rhs => rw [← List.map_id (uniqueKeys (engPrepped df tc ec)
    ["day_of_week", "event_name"])]
  apply List.map_congr_left
  intro k hk
  have h2 := uniqueKeys_len hk
  simp only [Function.comp_apply, id]
  rw [show (2 : ℕ) = k.length from h2.symm ▸ rfl]
  exact List.take_left _ _

theorem timeEvent_na (sq : ℚ → ℚ) (df : DataFrame) (metric : String)
    (a b : Val)
    (hno : [a, b] ∉ (dropna df [metric, "event_name", "time_period"]).rows.map
      (rowKey (dropna df [metric, "event_name", "time_period"])
        ["time_period", "event_name"])) :
    ∀ r ∈ (timeEventTable sq df metric).rows, r.take 2 = [a, b] →
      cellOf (timeEventTable sq df metric) r "mean" = .na ∧
      cellOf (timeEventTable sq df metric) r "std" = .na ∧
      cellOf (timeEventTable sq df metric) r "median" = .na ∧
      cellOf (timeEventTable sq df metric) r "count" = .na := by
  intro r hr htake
  simp only [timeEventTable] at hr
  rcases reindex_mem_cases hr with hmem | ⟨a', b', _, _, _, rfl⟩
  · obtain ⟨k1, k2, hk, rfl⟩ := timeEvent_row sq _ metric hmem
    exfalso
    apply hno
    have hkk : ([k1, k2] : List Val) = [a, b] := by
      simpa using htake
    rw [← hkk]
    exact mem_dedupFA.mp hk
  · have h' : ([a', b'] : List Val) = [a, b] := by simpa using htake
    obtain ⟨rfl, rfl⟩ : a' = a ∧ b' = b := by simpa using h'
    exact ⟨rfl, rfl, rfl, rfl⟩

theorem typeEvent_na (sq : ℚ → ℚ) (df : DataFrame) (metric : String)
    (sel : Option (List Val)) (a b : Val)
    (hno : [a, b] ∉ (applySel sel (dropna df [metric, "event_name", "post_type"])).rows.map
      (rowKey (applySel sel (dropna df [metric, "event_name", "post_type"]))
        ["post_type", "event_name"])) :
    ∀ r ∈ (typeEventTable sq df metric sel).rows, r.take 2 = [a, b] →
      cellOf (typeEventTable sq df metric sel) r "mean" = .na ∧
      cellOf (typeEventTable sq df metric sel) r "std" = .na ∧
      cellOf (typeEventTable sq df metric sel) r "median" = .na ∧
      cellOf (typeEventTable sq df metric sel) r "count" = .na := by
  intro r hr htake
  simp only [typeEventTable] at hr
  rcases reindex_mem_cases hr with hmem | ⟨a', b', _, _, _, rfl⟩
  · obtain ⟨k1, k2, hk, rfl⟩ := typeEvent_row sq _ metric hmem
    exfalso
    apply hno
    have hkk : ([k1, k2] : List Val) = [a, b] := by
      simpa using htake
    rw [← hkk]
    exact mem_dedupFA.mp hk
  · have h' : ([a', b'] : List Val) = [a, b] := by simpa using htake
    obtain ⟨rfl, rfl⟩ : a' = a ∧ b' = b := by simpa using h'
    exact ⟨rfl, rfl, rfl, rfl⟩

end BA

namespace BA

/-- C1 (amended): the time-and-event and type-and-event views reindex
their aggregation tables to the full cross product of the expected key
domains, one row per key pair, with NaN statistics for pairs absent
from the input; the day-of-week engagement view does not reindex: its
table holds exactly the observed (day, event) pairs, while the chart
only fixes the weekday order. -/
theorem claim1_cross_product (sq : ℚ → ℚ) (ok : Bool) (df : DataFrame)
    (metric fpre title y_label filename : String) (sel : Option (List Val))
    (tc ec fn : String) :
    ((timeEventTable sq df metric).rows.map (fun r => r.take 2) =
      keyPairs allPeriods
        (uniqueVals (dropna df [metric, "event_name", "time_period"])
          "event_name")) ∧
    ((timeEventTable sq df metric).rows.length =
      4 * (uniqueVals (dropna df [metric, "event_name", "time_period"])
        "event_name").length) ∧
    (∀ a b, [a, b] ∉ (dropna df [metric, "event_name", "time_period"]).rows.map
        (rowKey (dropna df [metric, "event_name", "time_period"])
          ["time_period", "event_name"]) →
      ∀ r ∈ (timeEventTable sq df metric).rows, r.take 2 = [a, b] →
        cellOf (timeEventTable sq df metric) r "mean" = .na ∧
        cellOf (timeEventTable sq df metric) r "std" = .na ∧
        cellOf (timeEventTable sq df metric) r "median" = .na ∧
        cellOf (timeEventTable sq df metric) r "count" = .na) ∧
    (hasCols df [metric, "event_name", "time_period"] = true →
      (dropna df [metric, "event_name", "time_period"]).rows.isEmpty = false →
      plot_average_metric_by_time_and_event sq ok df metric fpre title y_label =
        save_dataframe_as_text (timeEventTable sq df metric)
          (fpre ++ "_by_time_period_and_event.txt")
          ("Average " ++ pyTitle metric ++
            " by Time Period and Event (incl. Range)")
        ++ [.openFig]
        ++ save_plot ok (fpre ++ "_by_time_period_and_event_extended.png")
          (.bar (timeEventTable sq df metric) "time_period" "mean"
            "event_name" none)) ∧
    ((typeEventTable sq df metric sel).rows.map (fun r => r.take 2) =
      keyPairs
        (uniqueVals (applySel sel (dropna df [metric, "event_name", "post_type"]))
          "post_type")
        (uniqueVals (applySel sel (dropna df [metric, "event_name", "post_type"]))
          "event_name")) ∧
    ((typeEventTable sq df metric sel).rows.length =
      (uniqueVals (applySel sel (dropna df [metric, "event_name", "post_type"]))
        "post_type").length *
      (uniqueVals (applySel sel (dropna df [metric, "event_name", "post_type"]))
        "event_name").length) ∧
    (∀ a b, [a, b] ∉ (applySel sel (dropna df [metric, "event_name", "post_type"])).rows.map
        (rowKey (applySel sel (dropna df [metric, "event_name", "post_type"]))
          ["post_type", "event_name"]) →
      ∀ r ∈ (typeEventTable sq df metric sel).rows, r.take 2 = [a, b] →
        cellOf (typeEventTable sq df metric sel) r "mean" = .na ∧
        cellOf (typeEventTable sq df metric sel) r "std" = .na ∧
        cellOf (typeEventTable sq df metric sel) r "median" = .na ∧
        cellOf (typeEventTable sq df metric sel) r "count" = .na) ∧
    (hasCols df [metric, "event_name", "post_type"] = true →
      (applySel sel (dropna df [metric, "event_name", "post_type"])).rows.isEmpty = false →
      plot_metric_by_event_and_type sq ok df metric title filename sel =
        save_dataframe_as_text (typeEventTable sq df metric sel)
          (metric ++ "_by_post_type_and_event.txt")
          (pyTitle metric ++ " by Post Type and Event")
        ++ [.openFig]
        ++ save_plot ok filename
          (.bar (typeEventTable sq df metric sel) "post_type" "mean"
            "event_name" none)) ∧
    ((engagementTable df tc ec).rows.map (fun r => r.take 2) =
      uniqueKeys (engPrepped df tc ec) ["day_of_week", "event_name"]) ∧
    (hasCols df [tc, ec, "event_name"] = true →
      (dropna df [tc, ec, "event_name"]).rows.isEmpty = false →
      plot_engagement_per_day sq ok df tc ec fn =
        [.openFig]
        ++ save_plot ok fn
          (.bar (engagementTable df tc ec) "day_of_week" ec "event_name"
            (some weekDays))) := by
  refine ⟨?_, ?_, timeEvent_na sq df metric, time_view_spec sq ok df metric fpre title y_label,
    ?_, ?_, typeEvent_na sq df metric sel, type_view_spec sq ok df metric title filename sel,
    engagement_keys df tc ec, engagement_spec sq ok df tc ec fn⟩
  · simp only [timeEventTable]
    exact reindex_keys _ _ _
  · simp only [timeEventTable]
    exact reindex_rows_length _ _ _
  · simp only [typeEventTable]
    exact reindex_keys _ _ _
  · simp only [typeEventTable]
    exact reindex_rows_length _ _ _

end BA

namespace BA

section
attribute [local semireducible] Rat.mul Rat.add Rat.sub Rat.inv

/-- C1 counterexample: for a dataset observing a single weekday and a
single event, the day-of-week engagement view plots a one-row
aggregation table instead of the 7 x 1 cross product of the weekday
domain and the observed events, omitting the six empty weekdays. -/
theorem claim1_counterexample :
    (engagementTable dfDay1 "created_utc" "comment_score").rows.length = 1 ∧
    (uniqueVals (engPrepped dfDay1 "created_utc" "comment_score")
      "event_name").length = 1 ∧
    weekDays.length = 7 ∧
    (engagementTable dfDay1 "created_utc" "comment_score").rows.length ≠
      weekDays.length *
        (uniqueVals (engPrepped dfDay1 "created_utc" "comment_score")
          "event_name").length ∧
    Eff.writeImage "f.png"
        (.bar (engagementTable dfDay1 "created_utc" "comment_score")
          "day_of_week" "comment_score" "event_name" (some weekDays)) ∈
      plot_engagement_per_day id true dfDay1 "created_utc" "comment_score"
        "f.png" := by
  decide

/-- C1 witness: the amended claim applied at a concrete dataset. -/
theorem claim1_witness :
    (plot_average_metric_by_time_and_event id true dfFull "comment_score"
        "avg_comment_score" "t" "y" =
      save_dataframe_as_text (timeEventTable id dfFull "comment_score")
        ("avg_comment_score" ++ "_by_time_period_and_event.txt")
        ("Average " ++ pyTitle "comment_score" ++
          " by Time Period and Event (incl. Range)")
      ++ [.openFig]
      ++ save_plot true ("avg_comment_score" ++ "_by_time_period_and_event_extended.png")
        (.bar (timeEventTable id dfFull "comment_score") "time_period" "mean"
          "event_name" none)) ∧
    (cellOf (timeEventTable id dfFull "comment_score")
      [Val.str "During Event", .str "A", .na, .na, .na, .na, .na, .na]
      "mean" = .na) ∧
    (plot_metric_by_event_and_type id true dfFull "comment_score" "t" "f.png"
        none =
      save_dataframe_as_text (typeEventTable id dfFull "comment_score" none)
        ("comment_score" ++ "_by_post_type_and_event.txt")
        (pyTitle "comment_score" ++ " by Post Type and Event")
      ++ [.openFig]
      ++ save_plot true "f.png"
        (.bar (typeEventTable id dfFull "comment_score" none) "post_type"
          "mean" "event_name" none)) ∧
    (cellOf (typeEventTable id dfFull "comment_score" none)
      [Val.str "Link", .str "A", .na, .na, .na, .na, .na, .na]
      "mean" = .na) ∧
    (plot_engagement_per_day id true dfFull "created_utc" "comment_score"
        "g.png" =
      [.openFig]
      ++ save_plot true "g.png"
        (.bar (engagementTable dfFull "created_utc" "comment_score")
          "day_of_week" "comment_score" "event_name" (some weekDays))) := by
  obtain ⟨hk1, hl1, hna1, htr1, hk2, hl2, hna2, htr2, hek, hetr⟩ :=
    claim1_cross_product id true dfFull "comment_score" "avg_comment_score"
      "t" "y" "f.png" none "created_utc" "comment_score" "g.png"
  exact ⟨htr1 (by decide) (by decide),
    (hna1 (.str "During Event") (.str "A") (by decide) _ (by decide)
      (by decide)).1,
    htr2 (by decide) (by decide),
    (hna2 (.str "Link") (.str "A") (by decide) _ (by decide) (by decide)).1,
    hetr (by decide) (by decide)⟩

end

end BA

namespace BA

/-- C5: in every aggregation table the views produce (metric by time
and event, metric by type and event, distribution comparison, feature
summary), the derived bound columns satisfy lower = mean - std and
upper = mean + std in every row, NaN propagating. -/
theorem claim5_bounds_identity (sq : ℚ → ℚ) (df : DataFrame)
    (metric feature : String) (sel : Option (List Val)) (values : List ℚ) :
    (∀ r ∈ (timeEventTable sq df metric).rows,
      cellOf (timeEventTable sq df metric) r "lower_bound" =
        vsub (cellOf (timeEventTable sq df metric) r "mean")
          (cellOf (timeEventTable sq df metric) r "std") ∧
      cellOf (timeEventTable sq df metric) r "upper_bound" =
        vadd (cellOf (timeEventTable sq df metric) r "mean")
          (cellOf (timeEventTable sq df metric) r "std")) ∧
    (∀ r ∈ (typeEventTable sq df metric sel).rows,
      cellOf (typeEventTable sq df metric sel) r "lower_bound" =
        vsub (cellOf (typeEventTable sq df metric sel) r "mean")
          (cellOf (typeEventTable sq df metric sel) r "std") ∧
      cellOf (typeEventTable sq df metric sel) r "upper_bound" =
        vadd (cellOf (typeEventTable sq df metric sel) r "mean")
          (cellOf (typeEventTable sq df metric sel) r "std")) ∧
    (∀ r ∈ (distCompTable sq df feature).rows,
      cellOf (distCompTable sq df feature) r "lower_bound" =
        vsub (cellOf (distCompTable sq df feature) r "mean")
          (cellOf (distCompTable sq df feature) r "std") ∧
      cellOf (distCompTable sq df feature) r "upper_bound" =
        vadd (cellOf (distCompTable sq df feature) r "mean")
          (cellOf (distCompTable sq df feature) r "std")) ∧
    (∀ r ∈ (featureSummaryTable sq values).rows,
      cellOf (featureSummaryTable sq values) r "Lower Bound (Mean - Std)" =
        vsub (cellOf (featureSummaryTable sq values) r "Mean")
          (cellOf (featureSummaryTable sq values) r "Std") ∧
      cellOf (featureSummaryTable sq values) r "Upper Bound (Mean + Std)" =
        vadd (cellOf (featureSummaryTable sq values) r "Mean")
          (cellOf (featureSummaryTable sq values) r "Std")) := by
  refine ⟨?_, ?_, ?_, ?_⟩
  · intro r hr
    simp only [timeEventTable] at hr
    rcases reindex_mem_cases hr with hmem | ⟨a, b, ha, hb, hf, rfl⟩
    · obtain ⟨k1, k2, hk, rfl⟩ := timeEvent_row sq _ metric hmem
      exact ⟨rfl, rfl⟩
    · exact ⟨rfl, rfl⟩
  · intro r hr
    simp only [typeEventTable] at hr
    rcases reindex_mem_cases hr with hmem | ⟨a, b, ha, hb, hf, rfl⟩
    · obtain ⟨k1, k2, hk, rfl⟩ := typeEvent_row sq _ metric hmem
      exact ⟨rfl, rfl⟩
    · exact ⟨rfl, rfl⟩
  · intro r hr
    simp only [distCompTable] at hr
    obtain ⟨e, he, rfl⟩ := distComp_row sq _ feature hr
    exact ⟨rfl, rfl⟩
  · intro r hr
    simp only [featureSummaryTable, List.mem_singleton] at hr
    subst hr
    exact ⟨rfl, rfl⟩

section
attribute [local semireducible] Rat.mul Rat.add Rat.sub Rat.inv

/-- C5 witness: the bound identities at concrete rows of the four
tables built from a concrete dataset. -/
theorem claim5_witness :
    ([Val.str "Before Event", .str "A", .num 2, .num 2, .num 2, .num 2,
        .num 0, .num 4] ∈ (timeEventTable id dfFull "comment_score").rows) ∧
    (cellOf (timeEventTable id dfFull "comment_score")
        [Val.str "Before Event", .str "A", .num 2, .num 2, .num 2, .num 2,
          .num 0, .num 4] "lower_bound" =
      vsub (cellOf (timeEventTable id dfFull "comment_score")
          [Val.str "Before Event", .str "A", .num 2, .num 2, .num 2, .num 2,
            .num 0, .num 4] "mean")
        (cellOf (timeEventTable id dfFull "comment_score")
          [Val.str "Before Event", .str "A", .num 2, .num 2, .num 2, .num 2,
            .num 0, .num 4] "std")) ∧
    ([Val.str "Other", .str "A", .num 2, .num 2, .num 2, .num 2,
        .num 0, .num 4] ∈ (typeEventTable id dfFull "comment_score" none).rows) ∧
    (cellOf (typeEventTable id dfFull "comment_score" none)
        [Val.str "Other", .str "A", .num 2, .num 2, .num 2, .num 2,
          .num 0, .num 4] "upper_bound" =
      vadd (cellOf (typeEventTable id dfFull "comment_score" none)
          [Val.str "Other", .str "A", .num 2, .num 2, .num 2, .num 2,
            .num 0, .num 4] "mean")
        (cellOf (typeEventTable id dfFull "comment_score" none)
          [Val.str "Other", .str "A", .num 2, .num 2, .num 2, .num 2,
            .num 0, .num 4] "std")) ∧
    ([Val.str "A", .num 2, .num 2, .num 2, .num 2, .num 1, .num 3,
        .num 0, .num 4] ∈ (distCompTable id dfFull "comment_score").rows) ∧
    (cellOf (distCompTable id dfFull "comment_score")
        [Val.str "A", .num 2, .num 2, .num 2, .num 2, .num 1, .num 3,
          .num 0, .num 4] "lower_bound" =
      vsub (cellOf (distCompTable id dfFull "comment_score")
          [Val.str "A", .num 2, .num 2, .num 2, .num 2, .num 1, .num 3,
            .num 0, .num 4] "mean")
        (cellOf (distCompTable id dfFull "comment_score")
          [Val.str "A", .num 2, .num 2, .num 2, .num 2, .num 1, .num 3,
            .num 0, .num 4] "std")) ∧
    ([Val.num 2, .num 2, .num 1, .num 3, .num 1, .num 3] ∈
      (featureSummaryTable id (colValsQ dfFull "comment_score")).rows) ∧
    (cellOf (featureSummaryTable id (colValsQ dfFull "comment_score"))
        [Val.num 2, .num 2, .num 1, .num 3, .num 1, .num 3]
        "Lower Bound (Mean - Std)" =
      vsub (cellOf (featureSummaryTable id (colValsQ dfFull "comment_score"))
          [Val.num 2, .num 2, .num 1, .num 3, .num 1, .num 3] "Mean")
        (cellOf (featureSummaryTable id (colValsQ dfFull "comment_score"))
          [Val.num 2, .num 2, .num 1, .num 3, .num 1, .num 3] "Std")) := by
  obtain ⟨h1, h2, h3, h4⟩ := claim5_bounds_identity id dfFull "comment_score"
    "comment_score" none (colValsQ dfFull "comment_score")
  exact ⟨by decide, (h1 _ (by decide)).1, by decide, (h2 _ (by decide)).2,
    by decide, (h3 _ (by decide)).1, by decide, (h4 _ (by decide)).1⟩

end

end BA

namespace BA

/-- C2 (amended): every view checks its required columns before any
output (logging an error; the posting/score views first return with a
warning when the input is entirely empty), and the aggregating views
also return with a warning when no rows survive NaN-dropping; but the
posting-behavior histogram and score-development views never drop NaN
rows, so an input whose rows are all NaN in the plotted columns still
produces an image file. -/
theorem claim2_soft_checks (sq : ℚ → ℚ) (kdeF : List ℚ → ℚ → ℚ) (ok : Bool)
    (df : DataFrame) (metric feature fpre title y_label x_label hue_label
      filename : String) (sel : Option (List Val)) (bin_count : ℕ)
    (tc ec : String) (numF boolF : List String) :
    (hasCols df [metric, "event_name", "time_period"] = false →
      plot_average_metric_by_time_and_event sq ok df metric fpre title y_label =
        [.log .error ("Missing one or more required columns (" ++
          pyList [metric, "event_name", "time_period"] ++ ") for " ++ metric ++
          " plot. Skipping.")]) ∧
    (hasCols df [metric, "event_name", "time_period"] = true →
      (dropna df [metric, "event_name", "time_period"]).rows.isEmpty = true →
      plot_average_metric_by_time_and_event sq ok df metric fpre title y_label =
        [.log .warning ("No valid data to plot average " ++ metric ++
          " after filtering NaNs. Skipping plot.")]) ∧
    (hasCols df [metric, "event_name", "post_type"] = false →
      plot_metric_by_event_and_type sq ok df metric title filename sel =
        [.log .error ("Missing one or more required columns (" ++
          pyList [metric, "event_name", "post_type"] ++ ") for " ++ metric ++
          " by post type plot. Skipping.")]) ∧
    (hasCols df [metric, "event_name", "post_type"] = true →
      (applySel sel (dropna df [metric, "event_name", "post_type"])).rows.isEmpty = true →
      plot_metric_by_event_and_type sq ok df metric title filename sel =
        [.log .warning ("No valid data to plot average " ++ metric ++
          " by post type after filtering NaNs/types. Skipping plot.")]) ∧
    (df.cols.contains feature = false →
      plot_feature_distribution sq kdeF ok df feature title x_label bin_count fpre =
        [.log .error ("Feature column " ++ feature ++
          " not found in DataFrame. Skipping plot.")]) ∧
    (df.cols.contains feature = true → colValsQ df feature = [] →
      plot_feature_distribution sq kdeF ok df feature title x_label bin_count fpre =
        [.log .warning ("No valid data for feature " ++ feature ++
          ". Skipping distribution plot.")]) ∧
    (hasCols df [feature, "event_name"] = false →
      plot_distribution_comparison sq ok df feature title y_label fpre "violin" =
        [.log .error ("Missing one or more required columns (" ++
          pyList [feature, "event_name"] ++
          ") for distribution comparison plot. Skipping.")]) ∧
    (hasCols df [feature, "event_name"] = true →
      (dropna df [feature, "event_name"]).rows.isEmpty = true →
      plot_distribution_comparison sq ok df feature title y_label fpre "violin" =
        [.log .warning ("No valid data for feature " ++ feature ++
          " after filtering NaNs. Skipping distribution comparison plot.")]) ∧
    (hasCols df [tc, ec, "event_name"] = false →
      plot_engagement_per_day sq ok df tc ec filename =
        [.log .error ("Missing one or more required columns (" ++
          pyList [tc, ec, "event_name"] ++
          ") for engagement per day plot. Skipping.")]) ∧
    (hasCols df [tc, ec, "event_name"] = true →
      (dropna df [tc, ec, "event_name"]).rows.isEmpty = true →
      plot_engagement_per_day sq ok df tc ec filename =
        [.log .warning
          "No valid data for engagement per day after filtering NaNs. Skipping plot."]) ∧
    (df.rows.isEmpty = true →
      plot_posting_behavior_hist ok df x_label hue_label title filename =
        [.log .warning ("DataFrame is empty, skipping histogram plot for " ++
          title ++ ".")]) ∧
    (df.rows.isEmpty = false →
      (df.cols.contains x_label && df.cols.contains hue_label) = false →
      plot_posting_behavior_hist ok df x_label hue_label title filename =
        [.log .error ("Missing required columns " ++ x_label ++ " or " ++
          hue_label ++ " for histogram plot. Skipping.")]) ∧
    (df.rows.isEmpty = true →
      plot_posting_behavior_heatmap ok df title filename =
        [.log .warning ("DataFrame is empty, skipping heatmap plot for " ++
          title ++ ".")]) ∧
    (df.rows.isEmpty = true →
      plot_score_development ok df x_label y_label hue_label title filename =
        [.log .warning ("DataFrame is empty, skipping score development plot for "
          ++ title ++ ".")]) ∧
    (df.rows.isEmpty = false →
      hasCols df [x_label, y_label, hue_label] = false →
      plot_score_development ok df x_label y_label hue_label title filename =
        [.log .error ("Missing one or more required columns (" ++
          pyList [x_label, y_label, hue_label] ++
          ") for score development plot. Skipping.")]) ∧
    (df.rows.isEmpty = true →
      plot_pearson_correlation sq ok numF boolF df filename =
        [.log .warning "DataFrame is empty, skipping Pearson correlation analysis."]) := by
  refine ⟨time_view_missing sq ok df metric fpre title y_label,
    time_view_empty sq ok df metric fpre title y_label,
    type_view_missing sq ok df metric title filename sel,
    type_view_empty sq ok df metric title filename sel,
    feat_dist_missing sq kdeF ok df feature title x_label bin_count fpre,
    feat_dist_novals sq kdeF ok df feature title x_label bin_count fpre,
    dist_comp_missing sq ok df feature title y_label fpre "violin",
    dist_comp_empty sq ok df feature title y_label fpre "violin",
    engagement_missing sq ok df tc ec filename,
    engagement_empty sq ok df tc ec filename,
    ?_, ?_, ?_, ?_, ?_,
    fun h => pearson_empty sq ok numF boolF df filename h⟩
  · intro h
    unfold plot_posting_behavior_hist
    simp [h]
  · intro h1 h2
    unfold plot_posting_behavior_hist
    rw [Bool.and_eq_false_iff] at h2
    rcases h2 with h2 | h2
    · have h2' : x_label ∉ df.cols := by simpa using h2
      simp [h1, h2']
    · have h2' : hue_label ∉ df.cols := by simpa using h2
      simp [h1, h2']
  · intro h
    unfold plot_posting_behavior_heatmap
    simp [h]
  · intro h
    unfold plot_score_development
    simp [h]
  · intro h1 h2
    unfold plot_score_development
    simp [h1, h2]


/-- C2 counterexample: a dataset whose only row is NaN in a plotted
column leaves no rows after dropping NaNs in the required columns, yet
the posting-behavior histogram view still writes its image file, so
the empty-after-dropping check is not applied identically by every
view. -/
theorem claim2_counterexample :
    (dropna dfHistNaN ["h", "g"]).rows = [] ∧
    plot_posting_behavior_hist true dfHistNaN "h" "g" "T" "f.png" =
      [.openFig, .writeImage "f.png" (.histDodge dfHistNaN "h" "g"),
       .closeFig, .log .info "Plot saved to: f.png"] := by
  decide

/-- C2 witness: the amended claim applied at concrete datasets that
are respectively missing the required columns, all NaN in them, and
entirely empty. -/
theorem claim2_witness :
    (plot_average_metric_by_time_and_event id true dfMissing "comment_score"
        "p_" "T" "Y" =
      [.log .error ("Missing one or more required columns (" ++
        pyList ["comment_score", "event_name", "time_period"] ++
        ") for " ++ "comment_score" ++ " plot. Skipping.")]) ∧
    (plot_average_metric_by_time_and_event id true dfAllNaN "comment_score"
        "p_" "T" "Y" =
      [.log .warning ("No valid data to plot average " ++ "comment_score" ++
        " after filtering NaNs. Skipping plot.")]) ∧
    (plot_metric_by_event_and_type id true dfMissing "comment_score" "T"
        "f.png" none =
      [.log .error ("Missing one or more required columns (" ++
        pyList ["comment_score", "event_name", "post_type"] ++
        ") for " ++ "comment_score" ++ " by post type plot. Skipping.")]) ∧
    (plot_metric_by_event_and_type id true dfAllNaN "comment_score" "T"
        "f.png" none =
      [.log .warning ("No valid data to plot average " ++ "comment_score" ++
        " by post type after filtering NaNs/types. Skipping plot.")]) ∧
    (plot_feature_distribution id kdeZero true dfMissing "compound_sentiment"
        "T" "x" 30 "p_" =
      [.log .error ("Feature column " ++ "compound_sentiment" ++
        " not found in DataFrame. Skipping plot.")]) ∧
    (plot_feature_distribution id kdeZero true dfAllNaN "compound_sentiment"
        "T" "x" 30 "p_" =
      [.log .warning ("No valid data for feature " ++ "compound_sentiment" ++
        ". Skipping distribution plot.")]) ∧
    (plot_distribution_comparison id true dfMissing "compound_sentiment" "T"
        "Y" "p_" "violin" =
      [.log .error ("Missing one or more required columns (" ++
        pyList ["compound_sentiment", "event_name"] ++
        ") for distribution comparison plot. Skipping.")]) ∧
    (plot_distribution_comparison id true dfAllNaN "compound_sentiment" "T"
        "Y" "p_" "violin" =
      [.log .warning ("No valid data for feature " ++ "compound_sentiment" ++
        " after filtering NaNs. Skipping distribution comparison plot.")]) ∧
    (plot_engagement_per_day id true dfMissing "created_utc" "comment_score"
        "f.png" =
      [.log .error ("Missing one or more required columns (" ++
        pyList ["created_utc", "comment_score", "event_name"] ++
        ") for engagement per day plot. Skipping.")]) ∧
    (plot_engagement_per_day id true dfAllNaN "created_utc" "comment_score"
        "f.png" =
      [.log .warning
        "No valid data for engagement per day after filtering NaNs. Skipping plot."]) ∧
    (plot_posting_behavior_hist true dfEmptyNumeric "x" "g" "T" "f.png" =
      [.log .warning ("DataFrame is empty, skipping histogram plot for " ++
        "T" ++ ".")]) ∧
    (plot_posting_behavior_hist true dfMissing "x" "g" "T" "f.png" =
      [.log .error ("Missing required columns " ++ "x" ++ " or " ++ "g" ++
        " for histogram plot. Skipping.")]) ∧
    (plot_posting_behavior_heatmap true dfEmptyNumeric "T" "f.png" =
      [.log .warning ("DataFrame is empty, skipping heatmap plot for " ++
        "T" ++ ".")]) ∧
    (plot_score_development true dfEmptyNumeric "x" "Y" "g" "T" "f.png" =
      [.log .warning ("DataFrame is empty, skipping score development plot for "
        ++ "T" ++ ".")]) ∧
    (plot_score_development true dfMissing "x" "Y" "g" "T" "f.png" =
      [.log .error ("Missing one or more required columns (" ++
        pyList ["x", "Y", "g"] ++
        ") for score development plot. Skipping.")]) ∧
    (plot_pearson_correlation id true [] [] dfEmptyNumeric "f.png" =
      [.log .warning "DataFrame is empty, skipping Pearson correlation analysis."]) := by
  obtain ⟨t1, _, t3, _, t5, _, t7, _, t9, _, _, h12, _, _, h15, _⟩ :=
    claim2_soft_checks id kdeZero true dfMissing "comment_score"
      "compound_sentiment" "p_" "T" "Y" "x" "g" "f.png" none 30
      "created_utc" "comment_score" [] []
  obtain ⟨_, u2, _, u4, _, u6, _, u8, _, u10, _, _, _, _, _, _⟩ :=
    claim2_soft_checks id kdeZero true dfAllNaN "comment_score"
      "compound_sentiment" "p_" "T" "Y" "x" "g" "f.png" none 30
      "created_utc" "comment_score" [] []
  obtain ⟨_, _, _, _, _, _, _, _, _, _, e11, _, e13, e14, _, e16⟩ :=
    claim2_soft_checks id kdeZero true dfEmptyNumeric "comment_score"
      "compound_sentiment" "p_" "T" "Y" "x" "g" "f.png" none 30
      "created_utc" "comment_score" [] []
  exact ⟨t1 (by decide), u2 (by decide) (by decide), t3 (by decide),
    u4 (by decide) (by decide), t5 (by decide), u6 (by decide) (by decide),
    t7 (by decide), u8 (by decide) (by decide), t9 (by decide),
    u10 (by decide) (by decide), e11 (by decide), h12 (by decide) (by decide),
    e13 (by decide), e14 (by decide), h15 (by decide) (by decide),
    e16 (by decide)⟩

end BA

namespace BA

/-- C3 (amended): an unsupported plot_type aborts the distribution
comparison view with a logged error, its figure closed, and no chart
image written; but the grouped statistics text file has already been
written before the mode check. -/
theorem claim3_invalid_mode (sq : ℚ → ℚ) (ok : Bool) (df : DataFrame)
    (feature title y_label fpre plot_type : String)
    (h1 : hasCols df [feature, "event_name"] = true)
    (h2 : (dropna df [feature, "event_name"]).rows.isEmpty = false)
    (h3 : plot_type ≠ "violin") (h4 : plot_type ≠ "box") :
    plot_distribution_comparison sq ok df feature title y_label fpre plot_type =
      save_dataframe_as_text (distCompTable sq df feature)
        (fpre ++ feature ++ "_" ++ plot_type ++ "_stats.txt")
        (feature ++ " Distribution by Event (" ++ pyTitle plot_type ++
          " Plot Basis)")
      ++ [.openFig,
        .log .error ("Invalid plot_type " ++ plot_type ++
          ". Must be box or violin. Skipping plot."),
        .closeFig] ∧
    imageWrites (plot_distribution_comparison sq ok df feature title y_label
      fpre plot_type) = [] ∧
    textWrites (plot_distribution_comparison sq ok df feature title y_label
        fpre plot_type)
      (fpre ++ feature ++ "_" ++ plot_type ++ "_stats.txt") =
      [distCompTable sq df feature] := by
  have h := dist_comp_bad_type sq ok df feature title y_label fpre plot_type
    h1 h2 h3 h4
  refine ⟨h, ?_, ?_⟩
  · rw [h]
    simp [imageWrites, save_dataframe_as_text, isImage]
  · rw [h]
    simp [textWrites, save_dataframe_as_text]


section
attribute [local semireducible] Rat.mul Rat.add Rat.sub Rat.inv

/-- C3 counterexample: with valid nonempty data and plot_type "pie",
the view writes the grouped-statistics text file (and no image),
refuting that no file at all is written. -/
theorem claim3_counterexample :
    (dropna dfOneEvent ["comment_score", "event_name"]).rows.isEmpty = false ∧
    ("pie" : String) ≠ "box" ∧ ("pie" : String) ≠ "violin" ∧
    textWrites (plot_distribution_comparison id true dfOneEvent
        "comment_score" "T" "Y" "dist_comp_" "pie")
      ("dist_comp_" ++ "comment_score" ++ "_" ++ "pie" ++ "_stats.txt") =
      [distCompTable id dfOneEvent "comment_score"] ∧
    imageWrites (plot_distribution_comparison id true dfOneEvent
      "comment_score" "T" "Y" "dist_comp_" "pie") = [] ∧
    Eff.log .error ("Invalid plot_type " ++ "pie" ++
        ". Must be box or violin. Skipping plot.") ∈
      plot_distribution_comparison id true dfOneEvent "comment_score" "T" "Y"
        "dist_comp_" "pie" := by
  decide

/-- C3 witness: the amended claim applied at a concrete dataset and
mode value. -/
theorem claim3_witness :
    plot_distribution_comparison id true dfOneEvent "comment_score" "T" "Y"
        "dist_comp_" "pie" =
      save_dataframe_as_text (distCompTable id dfOneEvent "comment_score")
        ("dist_comp_" ++ "comment_score" ++ "_" ++ "pie" ++ "_stats.txt")
        ("comment_score" ++ " Distribution by Event (" ++ pyTitle "pie" ++
          " Plot Basis)")
      ++ [.openFig,
        .log .error ("Invalid plot_type " ++ "pie" ++
          ". Must be box or violin. Skipping plot."),
        .closeFig] := by
  exact (claim3_invalid_mode id true dfOneEvent "comment_score" "T" "Y"
    "dist_comp_" "pie" (by decide) (by decide) (by decide) (by decide)).1

end

end BA

namespace BA

theorem foldl_min_le (ys : List ℚ) (a : ℚ) :
    ys.foldl min a ≤ a ∧ ∀ x ∈ ys, ys.foldl min a ≤ x := by
  induction ys generalizing a with
  | nil => simp
  | cons y ys ih =>
    obtain ⟨h1, h2⟩ := ih (min a y)
    refine ⟨le_trans h1 (min_le_left a y), ?_⟩
    intro x hx
    rcases List.mem_cons.mp hx with rfl | hx
    · exact le_trans h1 (min_le_right a x)
    · exact h2 x hx

theorem le_foldl_max (ys : List ℚ) (a : ℚ) :
    a ≤ ys.foldl max a ∧ ∀ x ∈ ys, x ≤ ys.foldl max a := by
  induction ys generalizing a with
  | nil => simp
  | cons y ys ih =>
    obtain ⟨h1, h2⟩ := ih (max a y)
    refine ⟨le_trans (le_max_left a y) h1, ?_⟩
    intro x hx
    rcases List.mem_cons.mp hx with rfl | hx
    · exact le_trans (le_max_right a x) h1
    · exact h2 x hx

theorem qmin_le {l : List ℚ} {x : ℚ} (h : x ∈ l) : qmin l ≤ x := by
  cases l with
  | nil => cases h
  | cons y ys =>
    rcases List.mem_cons.mp h with rfl | hx
    · exact (foldl_min_le ys x).1
    · exact (foldl_min_le ys y).2 x hx

theorem le_qmax {l : List ℚ} {x : ℚ} (h : x ∈ l) : x ≤ qmax l := by
  cases l with
  | nil => cases h
  | cons y ys =>
    rcases List.mem_cons.mp h with rfl | hx
    · exact (le_foldl_max ys x).1
    · exact (le_foldl_max ys y).2 x hx

theorem allSame_false_lt {l : List ℚ} (h : allSame l = false) :
    qmin l < qmax l := by
  cases l with
  | nil => simp [allSame] at h
  | cons x xs =>
    have : ∃ y ∈ xs, y ≠ x := by
      by_contra hc
      push_neg at hc
      have : allSame (x :: xs) = true := by
        simp [allSame]
        intro y hy
        exact hc y hy
      rw [this] at h
      cases h
    obtain ⟨y, hy, hne⟩ := this
    have h1 : qmin (x :: xs) ≤ x := qmin_le (List.mem_cons_self x xs)
    have h2 : qmin (x :: xs) ≤ y := qmin_le (List.mem_cons_of_mem x hy)
    have h3 : x ≤ qmax (x :: xs) := le_qmax (List.mem_cons_self x xs)
    have h4 : y ≤ qmax (x :: xs) := le_qmax (List.mem_cons_of_mem x hy)
    rcases lt_or_gt_of_ne hne with hlt | hgt
    · exact lt_of_le_of_lt h2 (lt_of_lt_of_le hlt h3)
    · exact lt_of_le_of_lt h1 (lt_of_lt_of_le hgt h4)

theorem linspace_length (a b : ℚ) (n : ℕ) : (linspace a b n).length = n := by
  simp [linspace]

theorem linspace_head (a b : ℚ) : (linspace a b 200).head? = some a := by
  rw [linspace, List.head?_map]
  rw [show (List.range 200).head? = some 0 from by decide]
  simp

theorem linspace_last (a b : ℚ) : (linspace a b 200).getLast? = some b := by
  rw [linspace, List.getLast?_map]
  rw [show (List.range 200).getLast? = some 199 from by decide]
  show some (a + (b - a) * ((199 : ℕ) : ℚ) / (((200 : ℕ) : ℚ) - 1)) = some b
  norm_num

theorem linspace_pairwise (a b : ℚ) (h : a < b) :
    List.Pairwise (· < ·) (linspace a b 200) := by
  rw [linspace, List.pairwise_map]
  apply (List.pairwise_lt_range 200).imp
  intro i j hij
  have hba : (0 : ℚ) < b - a := sub_pos.2 h
  have hij' : (i : ℚ) < (j : ℚ) := by exact_mod_cast hij
  apply add_lt_add_left
  apply div_lt_div_of_pos_right ?_ (by norm_num)
  exact mul_lt_mul_of_pos_left hij' hba

theorem str_append_ne (s a b : String) (h : a ≠ b) : s ++ a ≠ s ++ b := by
  intro he
  apply h
  have hd := congrArg String.data he
  simp only [String.data_append] at hd
  exact String.ext (List.append_cancel_left hd)

end BA

namespace BA

theorem textWrites_append (t1 t2 : List Eff) (p : String) :
    textWrites (t1 ++ t2) p = textWrites t1 p ++ textWrites t2 p := by
  simp [textWrites, List.filterMap_append]

theorem featHistBranch_fst (df : DataFrame) (feature : String)
    (values : List ℚ) (bin_count : ℕ) :
    (featHistBranch df feature values bin_count).1 = [] ∨
    (featHistBranch df feature values bin_count).1 =
      [.log .warning ("No valid data for feature " ++ feature ++
        " with event_name after filtering NaNs. Plotting without hue.")] := by
  unfold featHistBranch
  split
  · dsimp only
    split
    · right; rfl
    · left; rfl
  · left; rfl

theorem textWrites_featHistBranch (df : DataFrame) (feature : String)
    (values : List ℚ) (bin_count : ℕ) (p : String) :
    textWrites (featHistBranch df feature values bin_count).1 p = [] := by
  rcases featHistBranch_fst df feature values bin_count with h | h <;>
    rw [h] <;> simp [textWrites]

theorem textWrites_save_plot (ok : Bool) (f : String) (img : ImageData)
    (p : String) : textWrites (save_plot ok f img) p = [] := by
  unfold save_plot
  split <;> simp [textWrites]

/-- C4 (amended): with at least two distinct non-null observations
the view writes the density-curve text file with exactly 200 sampled
points whose x grid spans exactly the observed minimum to maximum
inclusive and is strictly increasing; with fewer than two
observations the view logs, skips the density artifact and still
writes the summary; but with two or more observations that are all
equal the density estimator raises on its singular covariance after
the summary is written, so no density-curve file is produced. -/
theorem claim4_kde_curve (sq : ℚ → ℚ) (kdeF : List ℚ → ℚ → ℚ) (ok : Bool)
    (df : DataFrame) (feature title x_label : String) (bin_count : ℕ)
    (fpre : String) :
    (df.cols.contains feature = true →
      1 < (colValsQ df feature).length →
      allSame (colValsQ df feature) = false →
      textWrites (plot_feature_distribution sq kdeF ok df feature title
          x_label bin_count fpre) (fpre ++ feature ++ "_kde_curve.txt") =
        [kdeTable kdeF (colValsQ df feature)] ∧
      textWrites (plot_feature_distribution sq kdeF ok df feature title
          x_label bin_count fpre) (fpre ++ feature ++ "_summary.txt") =
        [featureSummaryTable sq (colValsQ df feature)] ∧
      (kdeTable kdeF (colValsQ df feature)).rows.length = 200 ∧
      (kdeTable kdeF (colValsQ df feature)).rows.map (fun r => r.getD 0 .na) =
        (linspace (qmin (colValsQ df feature)) (qmax (colValsQ df feature))
          200).map Val.num ∧
      (linspace (qmin (colValsQ df feature)) (qmax (colValsQ df feature))
        200).head? = some (qmin (colValsQ df feature)) ∧
      (linspace (qmin (colValsQ df feature)) (qmax (colValsQ df feature))
        200).getLast? = some (qmax (colValsQ df feature)) ∧
      List.Pairwise (· < ·)
        (linspace (qmin (colValsQ df feature)) (qmax (colValsQ df feature))
          200)) ∧
    (df.cols.contains feature = true →
      1 < (colValsQ df feature).length →
      allSame (colValsQ df feature) = true →
      plot_feature_distribution sq kdeF ok df feature title x_label bin_count
          fpre =
        save_dataframe_as_text (featureSummaryTable sq (colValsQ df feature))
          (fpre ++ feature ++ "_summary.txt")
          (feature ++ " Distribution Summary") ++ [.raised] ∧
      textWrites (plot_feature_distribution sq kdeF ok df feature title
          x_label bin_count fpre) (fpre ++ feature ++ "_kde_curve.txt") = []) ∧
    (df.cols.contains feature = true →
      (colValsQ df feature).isEmpty = false →
      ¬(1 < (colValsQ df feature).length) →
      textWrites (plot_feature_distribution sq kdeF ok df feature title
          x_label bin_count fpre) (fpre ++ feature ++ "_summary.txt") =
        [featureSummaryTable sq (colValsQ df feature)] ∧
      textWrites (plot_feature_distribution sq kdeF ok df feature title
          x_label bin_count fpre) (fpre ++ feature ++ "_kde_curve.txt") = [] ∧
      .log .warning ("Not enough data points to generate KDE curve for " ++
          feature ++ ".") ∈
        plot_feature_distribution sq kdeF ok df feature title x_label
          bin_count fpre) := by
  have hne : (fpre ++ feature ++ "_summary.txt") ≠
      (fpre ++ feature ++ "_kde_curve.txt") :=
    str_append_ne (fpre ++ feature) "_summary.txt" "_kde_curve.txt"
      (by decide)
  refine ⟨?_, ?_, ?_⟩
  · intro h1 h2 h3
    rw [feat_dist_kde sq kdeF ok df feature title x_label bin_count fpre h1
      h2 h3]
    have hlt := allSame_false_lt h3
    refine ⟨?_, ?_, by simp [kdeTable, linspace_length], ?_,
      linspace_head _ _, linspace_last _ _, linspace_pairwise _ _ hlt⟩
    · simp only [textWrites_append, textWrites_save_plot,
        textWrites_featHistBranch]
      simp [textWrites, save_dataframe_as_text, List.filterMap_cons, hne]
    · simp only [textWrites_append, textWrites_save_plot,
        textWrites_featHistBranch]
      simp [textWrites, save_dataframe_as_text, List.filterMap_cons, hne.symm]
    · simp [kdeTable]
  · intro h1 h2 h3
    have ht := feat_dist_raise sq kdeF ok df feature title x_label bin_count
      fpre h1 h2 h3
    refine ⟨ht, ?_⟩
    rw [ht]
    simp only [textWrites_append]
    simp [textWrites, save_dataframe_as_text, List.filterMap_cons, hne]
  · intro h1 h2 h3
    rw [feat_dist_short sq kdeF ok df feature title x_label bin_count fpre h1
      h2 h3]
    refine ⟨?_, ?_, ?_⟩
    · simp only [textWrites_append, textWrites_save_plot,
        textWrites_featHistBranch]
      simp [textWrites, save_dataframe_as_text, List.filterMap_cons, hne.symm]
    · simp only [textWrites_append, textWrites_save_plot,
        textWrites_featHistBranch]
      simp [textWrites, save_dataframe_as_text, List.filterMap_cons, hne]
    · simp [save_dataframe_as_text]

end BA

namespace BA

section
attribute [local semireducible] Rat.mul Rat.add Rat.sub Rat.inv

/-- C4 counterexample: a feature with two (hence at least two)
non-null observations that are all equal makes the density estimator
raise, so no density-curve text file is written even though the
summary file is. -/
theorem claim4_counterexample :
    (colValsQ dfConst "f").length = 2 ∧
    textWrites (plot_feature_distribution id kdeZero true dfConst "f" "T"
      "x" 30 "dist_") ("dist_" ++ "f" ++ "_kde_curve.txt") = [] ∧
    plot_feature_distribution id kdeZero true dfConst "f" "T" "x" 30 "dist_" =
      save_dataframe_as_text (featureSummaryTable id (colValsQ dfConst "f"))
        ("dist_" ++ "f" ++ "_summary.txt")
        ("f" ++ " Distribution Summary") ++ [.raised] := by
  decide

/-- C4 witness: the amended claim applied at concrete datasets with
two distinct values and with a single value. -/
theorem claim4_witness :
    (textWrites (plot_feature_distribution id kdeZero true dfTwoVals "f" "T"
        "x" 30 "dist_") ("dist_" ++ "f" ++ "_kde_curve.txt") =
      [kdeTable kdeZero (colValsQ dfTwoVals "f")] ∧
      textWrites (plot_feature_distribution id kdeZero true dfTwoVals "f" "T"
        "x" 30 "dist_") ("dist_" ++ "f" ++ "_summary.txt") =
      [featureSummaryTable id (colValsQ dfTwoVals "f")] ∧
      (kdeTable kdeZero (colValsQ dfTwoVals "f")).rows.length = 200 ∧
      (kdeTable kdeZero (colValsQ dfTwoVals "f")).rows.map
        (fun r => r.getD 0 .na) =
        (linspace (qmin (colValsQ dfTwoVals "f"))
          (qmax (colValsQ dfTwoVals "f")) 200).map Val.num ∧
      (linspace (qmin (colValsQ dfTwoVals "f"))
        (qmax (colValsQ dfTwoVals "f")) 200).head? =
        some (qmin (colValsQ dfTwoVals "f")) ∧
      (linspace (qmin (colValsQ dfTwoVals "f"))
        (qmax (colValsQ dfTwoVals "f")) 200).getLast? =
        some (qmax (colValsQ dfTwoVals "f")) ∧
      List.Pairwise (· < ·)
        (linspace (qmin (colValsQ dfTwoVals "f"))
          (qmax (colValsQ dfTwoVals "f")) 200)) ∧
    (textWrites (plot_feature_distribution id kdeZero true dfOneEvent
        "comment_score" "T" "x" 30 "dist_")
      ("dist_" ++ "comment_score" ++ "_summary.txt") =
      [featureSummaryTable id (colValsQ dfOneEvent "comment_score")] ∧
      textWrites (plot_feature_distribution id kdeZero true dfOneEvent
        "comment_score" "T" "x" 30 "dist_")
      ("dist_" ++ "comment_score" ++ "_kde_curve.txt") = [] ∧
      .log .warning ("Not enough data points to generate KDE curve for " ++
          "comment_score" ++ ".") ∈
        plot_feature_distribution id kdeZero true dfOneEvent "comment_score"
          "T" "x" 30 "dist_") := by
  constructor
  · exact (claim4_kde_curve id kdeZero true dfTwoVals "f" "T" "x" 30
      "dist_").1 (by decide) (by decide) (by decide)
  · exact (claim4_kde_curve id kdeZero true dfOneEvent "comment_score" "T"
      "x" 30 "dist_").2.2 (by decide) (by decide) (by decide)

end

end BA

namespace BA

/-- C6 (amended): for a nonempty dataset, the correlation view's
usable columns are exactly the union of the configured lists and the
built-in fallback list, intersected with the columns present and
numeric; with fewer than two such columns it only logs the
need-at-least-2 warning, otherwise it renders the Pearson matrix over
them.  An entirely empty dataset is skipped earlier with a generic
empty-input warning instead. -/
theorem claim6_correlation (sq : ℚ → ℚ) (ok : Bool)
    (numF boolF : List String) (df : DataFrame) (filename : String)
    (h : df.rows.isEmpty = false) :
    (∀ c, c ∈ availableNumericalCols numF boolF df ↔
      ((c ∈ numF ++ boolF ++ additionalNumericalCols) ∧ c ∈ df.cols ∧
        isNumericCol df c = true)) ∧
    ((availableNumericalCols numF boolF df).length < 2 →
      plot_pearson_correlation sq ok numF boolF df filename =
        [.log .warning "Not enough numerical columns available for correlation analysis (need at least 2). Skipping plot."]) ∧
    (¬((availableNumericalCols numF boolF df).length < 2) →
      plot_pearson_correlation sq ok numF boolF df filename =
        [.log .info "\n--- Calculating Pearson Correlations ---",
         .log .info "Correlation Matrix",
         .openFig]
        ++ save_plot ok filename
          (.corr (corrMatrix sq df (availableNumericalCols numF boolF df)))) := by
  refine ⟨?_, fun h2 => pearson_few sq ok numF boolF df filename h h2,
    fun h2 => pearson_spec sq ok numF boolF df filename h h2⟩
  intro c
  unfold availableNumericalCols
  rw [List.mem_filter, mem_dedupFA]
  simp [and_assoc]

/-- C7: every image the day-of-week engagement view writes is a bar
chart whose x-axis category order is the fixed Monday-to-Sunday list,
regardless of the input rows. -/
theorem claim7_weekday_order (sq : ℚ → ℚ) (ok : Bool) (df : DataFrame)
    (tc ec fn : String) :
    ∀ p d, Eff.writeImage p d ∈ plot_engagement_per_day sq ok df tc ec fn →
      imgXCats d = some weekDays := by
  intro p d hmem
  by_cases h1 : hasCols df [tc, ec, "event_name"] = true
  · by_cases h2 : (dropna df [tc, ec, "event_name"]).rows.isEmpty = false
    · rw [engagement_spec sq ok df tc ec fn h1 h2] at hmem
      cases ok with
      | true =>
        simp [save_plot] at hmem
        obtain ⟨rfl, rfl⟩ := hmem
        simp [imgXCats, barXCats]
      | false => simp [save_plot] at hmem
    · rw [engagement_empty sq ok df tc ec fn h1
        (by simpa using h2)] at hmem
      simp at hmem
  · rw [engagement_missing sq ok df tc ec fn
      (by simpa using h1)] at hmem
    simp at hmem


section
attribute [local semireducible] Rat.mul Rat.add Rat.sub Rat.inv

/-- C6 counterexample: an entirely empty dataset has fewer than two
usable numeric columns, yet the view logs the generic empty-input
warning rather than a warning containing "need at least 2". -/
theorem claim6_counterexample :
    (availableNumericalCols [] [] dfEmptyNumeric).length < 2 ∧
    plot_pearson_correlation id true [] [] dfEmptyNumeric
        "pearson_correlation_matrix.png" =
      [.log .warning "DataFrame is empty, skipping Pearson correlation analysis."] ∧
    ("DataFrame is empty, skipping Pearson correlation analysis." : String) ≠
      "Not enough numerical columns available for correlation analysis (need at least 2). Skipping plot." ∧
    imageWrites (plot_pearson_correlation id true [] [] dfEmptyNumeric
      "pearson_correlation_matrix.png") = [] := by
  decide

/-- C6 witness: the amended claim applied at a nonempty dataset with
one numeric column and at one with several. -/
theorem claim6_witness :
    (("comment_score" ∈ availableNumericalCols [] [] dfOneNumeric) ↔
      (("comment_score" ∈ ([] : List String) ++ ([] : List String) ++
        additionalNumericalCols) ∧ "comment_score" ∈ dfOneNumeric.cols ∧
        isNumericCol dfOneNumeric "comment_score" = true)) ∧
    (plot_pearson_correlation id true [] [] dfOneNumeric "p.png" =
      [.log .warning "Not enough numerical columns available for correlation analysis (need at least 2). Skipping plot."]) ∧
    (plot_pearson_correlation id true [] [] dfFull "p.png" =
      [.log .info "\n--- Calculating Pearson Correlations ---",
       .log .info "Correlation Matrix",
       .openFig]
      ++ save_plot true "p.png"
        (.corr (corrMatrix id dfFull (availableNumericalCols [] [] dfFull)))) := by
  obtain ⟨hm, hf, _⟩ := claim6_correlation id true [] [] dfOneNumeric "p.png"
    (by decide)
  obtain ⟨_, _, hs⟩ := claim6_correlation id true [] [] dfFull "p.png"
    (by decide)
  exact ⟨hm "comment_score", hf (by decide), hs (by decide)⟩

/-- C7 witness: the weekday-order claim applied to the image a
concrete call writes. -/
theorem claim7_witness :
    (Eff.writeImage "g.png"
        (.bar (engagementTable dfFull "created_utc" "comment_score")
          "day_of_week" "comment_score" "event_name" (some weekDays)) ∈
      plot_engagement_per_day id true dfFull "created_utc" "comment_score"
        "g.png") ∧
    imgXCats (.bar (engagementTable dfFull "created_utc" "comment_score")
      "day_of_week" "comment_score" "event_name" (some weekDays)) =
      some weekDays := by
  refine ⟨by decide, ?_⟩
  exact claim7_weekday_order id true dfFull "created_utc" "comment_score"
    "g.png" "g.png" _ (by decide)

end

end BA

namespace BA

/-- C8: in the store semantics, where python column assignments are
mutations of the frame object a name refers to, the four views that
perform any subscript assignment (the two metric views, the
distribution comparison, and the day-of-week view) leave the caller's
input frame unchanged: their assignments target only frames they
allocated themselves.  The remaining views contain no assignment at
all (their pure embeddings only read the input). -/
theorem claim8_no_mutation (sq : ℚ → ℚ) (ok : Bool) (s : Store) (i : ℕ)
    (metric fpre title y_label filename feature plot_type tc ec : String)
    (sel : Option (List Val)) (h : i < s.length) :
    storeGet (plot_average_metric_by_time_and_eventS sq ok s i metric fpre
      title y_label).1 i = storeGet s i ∧
    storeGet (plot_metric_by_event_and_typeS sq ok s i metric title filename
      sel).1 i = storeGet s i ∧
    storeGet (plot_distribution_comparisonS sq ok s i feature title y_label
      fpre plot_type).1 i = storeGet s i ∧
    storeGet (plot_engagement_per_dayS sq ok s i tc ec filename).1 i =
      storeGet s i := by
  have hne : i ≠ s.length := Nat.ne_of_lt h
  have hne1 : i ≠ (s ++ [groupbyAgg (dropna (storeGet s i)
    [metric, "event_name", "time_period"]) ["time_period", "event_name"]
    metric (aggsMSMC sq)]).length := by
    simp only [List.length_append, List.length_singleton]
    omega
  refine ⟨?_, ?_, ?_, ?_⟩
  · unfold plot_average_metric_by_time_and_eventS
    dsimp only
    split
    · rfl
    · split
      · rfl
      · rw [storeGet_set_ne, storeGet_set_ne, storeGet_append_lt _ _ _ h] <;>
          exact Nat.ne_of_lt (by simpa using h)
  · unfold plot_metric_by_event_and_typeS
    dsimp only
    split
    · rfl
    · split
      · rfl
      · rw [storeGet_set_ne, storeGet_set_ne, storeGet_append_lt _ _ _ h] <;>
          exact Nat.ne_of_lt (by simpa using h)
  · unfold plot_distribution_comparisonS
    dsimp only
    split
    · rfl
    · split
      · rfl
      · split
        · rw [storeGet_set_ne, storeGet_set_ne, storeGet_append_lt _ _ _ h] <;>
            exact Nat.ne_of_lt (by simpa using h)
        · split
          · rw [storeGet_set_ne, storeGet_set_ne,
              storeGet_append_lt _ _ _ h] <;>
              exact Nat.ne_of_lt (by simpa using h)
          · rw [storeGet_set_ne, storeGet_set_ne,
              storeGet_append_lt _ _ _ h] <;>
              exact Nat.ne_of_lt (by simpa using h)
  · unfold plot_engagement_per_dayS
    dsimp only
    split
    · rfl
    · split
      · rfl
      · rw [storeGet_set_ne, storeGet_set_ne, storeGet_append_lt _ _ _ h] <;>
          exact Nat.ne_of_lt (by simpa using h)


section
attribute [local semireducible] Rat.mul Rat.add Rat.sub Rat.inv

/-- C8 witness: the preservation statement applied to a concrete
one-frame store. -/
theorem claim8_witness :
    (0 < ([dfFull] : Store).length) ∧
    (storeGet (plot_average_metric_by_time_and_eventS id true [dfFull] 0
      "comment_score" "p_" "T" "Y").1 0 = storeGet [dfFull] 0 ∧
    storeGet (plot_metric_by_event_and_typeS id true [dfFull] 0
      "comment_score" "T" "f.png" none).1 0 = storeGet [dfFull] 0 ∧
    storeGet (plot_distribution_comparisonS id true [dfFull] 0
      "comment_score" "T" "Y" "p_" "violin").1 0 = storeGet [dfFull] 0 ∧
    storeGet (plot_engagement_per_dayS id true [dfFull] 0 "created_utc"
      "comment_score" "g.png").1 0 = storeGet [dfFull] 0) := by
  exact ⟨by decide,
    claim8_no_mutation id true [dfFull] 0 "comment_score" "p_" "T" "Y"
      "f.png" "comment_score" "violin" "created_utc" "comment_score" none
      (by decide)⟩

end

end BA

namespace BA

theorem nOpen_append (a b : List Eff) : nOpen (a ++ b) = nOpen a + nOpen b := by
  simp [nOpen, List.filter_append]

theorem nClose_append (a b : List Eff) :
    nClose (a ++ b) = nClose a + nClose b := by
  simp [nClose, List.filter_append]

theorem balanced_seqT {t r : List Eff} (ht : nOpen t = nClose t)
    (hr : nOpen r = nClose r) : nOpen (seqT t r) = nClose (seqT t r) := by
  unfold seqT
  split
  · exact ht
  · rw [nOpen_append, nClose_append, ht, hr]

theorem balanced_time (sq : ℚ → ℚ) (df : DataFrame)
    (metric fpre title y_label : String) :
    nOpen (plot_average_metric_by_time_and_event sq true df metric fpre title
      y_label) =
    nClose (plot_average_metric_by_time_and_event sq true df metric fpre
      title y_label) := by
  by_cases h1 : hasCols df [metric, "event_name", "time_period"] = true
  · by_cases h2 : (dropna df [metric, "event_name", "time_period"]).rows.isEmpty = false
    · rw [time_view_spec sq true df metric fpre title y_label h1 h2]
      simp [nOpen, nClose, save_plot, save_dataframe_as_text, List.filter,
        isOpenFig, isCloseFig]
    · rw [time_view_empty sq true df metric fpre title y_label h1
        (by simpa using h2)]
      simp [nOpen, nClose, List.filter, isOpenFig, isCloseFig]
  · rw [time_view_missing sq true df metric fpre title y_label
      (by simpa using h1)]
    simp [nOpen, nClose, List.filter, isOpenFig, isCloseFig]





theorem dist_comp_box (sq : ℚ → ℚ) (ok : Bool) (df : DataFrame)
    (feature title y_label fpre : String)
    (h1 : hasCols df [feature, "event_name"] = true)
    (h2 : (dropna df [feature, "event_name"]).rows.isEmpty = false) :
    plot_distribution_comparison sq ok df feature title y_label fpre "box" =
      save_dataframe_as_text (distCompTable sq df feature)
        (fpre ++ feature ++ "_" ++ "box" ++ "_stats.txt")
        (feature ++ " Distribution by Event (" ++ pyTitle "box" ++
          " Plot Basis)")
      ++ [.openFig]
      ++ save_plot ok (fpre ++ feature ++ "_" ++ "box" ++ "_extended.png")
        (.box (dropna df [feature, "event_name"]) "event_name" feature) := by
  unfold plot_distribution_comparison plot_distribution_comparisonS
    distCompTable withBounds
  simp only [storeGet_single, h1, h2, Bool.true_eq_false, if_false,
    Bool.false_eq_true, List.length_singleton]
  simp [storeGet, List.set]

theorem balanced_type (sq : ℚ → ℚ) (df : DataFrame)
    (metric title filename : String) (sel : Option (List Val)) :
    nOpen (plot_metric_by_event_and_type sq true df metric title filename sel) =
    nClose (plot_metric_by_event_and_type sq true df metric title filename
      sel) := by
  by_cases h1 : hasCols df [metric, "event_name", "post_type"] = true
  · by_cases h2 : (applySel sel (dropna df [metric, "event_name", "post_type"])).rows.isEmpty = false
    · rw [type_view_spec sq true df metric title filename sel h1 h2]
      simp [nOpen, nClose, save_plot, save_dataframe_as_text, List.filter,
        isOpenFig, isCloseFig]
    · rw [type_view_empty sq true df metric title filename sel h1
        (by simpa using h2)]
      simp [nOpen, nClose, List.filter, isOpenFig, isCloseFig]
  · rw [type_view_missing sq true df metric title filename sel
      (by simpa using h1)]
    simp [nOpen, nClose, List.filter, isOpenFig, isCloseFig]

theorem balanced_featHist (df : DataFrame) (feature : String)
    (values : List ℚ) (bin_count : ℕ) :
    nOpen (featHistBranch df feature values bin_count).1 = 0 ∧
    nClose (featHistBranch df feature values bin_count).1 = 0 := by
  rcases featHistBranch_fst df feature values bin_count with h | h <;>
    rw [h] <;> simp [nOpen, nClose, List.filter, isOpenFig, isCloseFig]

theorem balanced_featdist (sq : ℚ → ℚ) (kdeF : List ℚ → ℚ → ℚ)
    (df : DataFrame) (feature title x_label : String) (bin_count : ℕ)
    (fpre : String) :
    nOpen (plot_feature_distribution sq kdeF true df feature title x_label
      bin_count fpre) =
    nClose (plot_feature_distribution sq kdeF true df feature title x_label
      bin_count fpre) := by
  obtain ⟨hb1, hb2⟩ := balanced_featHist df feature (colValsQ df feature)
    bin_count
  by_cases h1 : df.cols.contains feature = true
  · by_cases h0 : (colValsQ df feature).isEmpty = false
    · by_cases h2 : 1 < (colValsQ df feature).length
      · by_cases h3 : allSame (colValsQ df feature) = true
        · rw [feat_dist_raise sq kdeF true df feature title x_label bin_count
            fpre h1 h2 h3]
          simp [nOpen, nClose, save_dataframe_as_text, List.filter,
            isOpenFig, isCloseFig]
        · rw [feat_dist_kde sq kdeF true df feature title x_label bin_count
            fpre h1 h2 (by simpa using h3)]
          simp only [nOpen_append, nClose_append, hb1, hb2]
          simp [nOpen, nClose, save_plot, save_dataframe_as_text,
            List.filter, isOpenFig, isCloseFig]
      · rw [feat_dist_short sq kdeF true df feature title x_label bin_count
          fpre h1 h0 h2]
        simp only [nOpen_append, nClose_append, hb1, hb2]
        simp [nOpen, nClose, save_plot, save_dataframe_as_text, List.filter,
          isOpenFig, isCloseFig]
    · rw [feat_dist_novals sq kdeF true df feature title x_label bin_count
        fpre h1 (by simpa using h0)]
      simp [nOpen, nClose, List.filter, isOpenFig, isCloseFig]
  · rw [feat_dist_missing sq kdeF true df feature title x_label bin_count
      fpre (by simpa using h1)]
    simp [nOpen, nClose, List.filter, isOpenFig, isCloseFig]

theorem balanced_distcomp (sq : ℚ → ℚ) (df : DataFrame)
    (feature title y_label fpre plot_type : String) :
    nOpen (plot_distribution_comparison sq true df feature title y_label fpre
      plot_type) =
    nClose (plot_distribution_comparison sq true df feature title y_label
      fpre plot_type) := by
  by_cases h1 : hasCols df [feature, "event_name"] = true
  · by_cases h2 : (dropna df [feature, "event_name"]).rows.isEmpty = false
    · by_cases hv : plot_type = "violin"
      · subst hv
        rw [dist_comp_violin sq true df feature title y_label fpre h1 h2]
        simp [nOpen, nClose, save_plot, save_dataframe_as_text, List.filter,
          isOpenFig, isCloseFig]
      · by_cases hb : plot_type = "box"
        · subst hb
          rw [dist_comp_box sq true df feature title y_label fpre h1 h2]
          simp [nOpen, nClose, save_plot, save_dataframe_as_text,
            List.filter, isOpenFig, isCloseFig]
        · rw [dist_comp_bad_type sq true df feature title y_label fpre
            plot_type h1 h2 hv hb]
          simp [nOpen, nClose, save_dataframe_as_text, List.filter,
            isOpenFig, isCloseFig]
    · rw [dist_comp_empty sq true df feature title y_label fpre plot_type h1
        (by simpa using h2)]
      simp [nOpen, nClose, List.filter, isOpenFig, isCloseFig]
  · rw [dist_comp_missing sq true df feature title y_label fpre plot_type
      (by simpa using h1)]
    simp [nOpen, nClose, List.filter, isOpenFig, isCloseFig]

theorem balanced_hist (df : DataFrame) (x_label hue_label title filename : String) :
    nOpen (plot_posting_behavior_hist true df x_label hue_label title
      filename) =
    nClose (plot_posting_behavior_hist true df x_label hue_label title
      filename) := by
  unfold plot_posting_behavior_hist
  split
  · simp [nOpen, nClose, List.filter, isOpenFig, isCloseFig]
  · split
    · simp [nOpen, nClose, List.filter, isOpenFig, isCloseFig]
    · simp [nOpen, nClose, save_plot, List.filter, isOpenFig, isCloseFig]

theorem balanced_heatmap (df : DataFrame) (title filename : String) :
    nOpen (plot_posting_behavior_heatmap true df title filename) =
    nClose (plot_posting_behavior_heatmap true df title filename) := by
  unfold plot_posting_behavior_heatmap
  split
  · simp [nOpen, nClose, List.filter, isOpenFig, isCloseFig]
  · simp [nOpen, nClose, save_plot, List.filter, isOpenFig, isCloseFig]

theorem balanced_score (df : DataFrame)
    (x_label y_label hue_label title filename : String) :
    nOpen (plot_score_development true df x_label y_label hue_label title
      filename) =
    nClose (plot_score_development true df x_label y_label hue_label title
      filename) := by
  unfold plot_score_development
  split
  · simp [nOpen, nClose, List.filter, isOpenFig, isCloseFig]
  · split
    · simp [nOpen, nClose, List.filter, isOpenFig, isCloseFig]
    · simp [nOpen, nClose, save_plot, List.filter, isOpenFig, isCloseFig]

theorem balanced_pearson (sq : ℚ → ℚ) (numF boolF : List String)
    (df : DataFrame) (filename : String) :
    nOpen (plot_pearson_correlation sq true numF boolF df filename) =
    nClose (plot_pearson_correlation sq true numF boolF df filename) := by
  unfold plot_pearson_correlation
  split
  · simp [nOpen, nClose, List.filter, isOpenFig, isCloseFig]
  · dsimp only
    split
    · simp [nOpen, nClose, List.filter, isOpenFig, isCloseFig]
    · simp [nOpen, nClose, save_plot, List.filter, isOpenFig, isCloseFig]

theorem balanced_engagement (sq : ℚ → ℚ) (df : DataFrame)
    (tc ec filename : String) :
    nOpen (plot_engagement_per_day sq true df tc ec filename) =
    nClose (plot_engagement_per_day sq true df tc ec filename) := by
  by_cases h1 : hasCols df [tc, ec, "event_name"] = true
  · by_cases h2 : (dropna df [tc, ec, "event_name"]).rows.isEmpty = false
    · rw [engagement_spec sq true df tc ec filename h1 h2]
      simp [nOpen, nClose, save_plot, List.filter, isOpenFig, isCloseFig]
    · rw [engagement_empty sq true df tc ec filename h1 (by simpa using h2)]
      simp [nOpen, nClose, List.filter, isOpenFig, isCloseFig]
  · rw [engagement_missing sq true df tc ec filename (by simpa using h1)]
    simp [nOpen, nClose, List.filter, isOpenFig, isCloseFig]

theorem balanced_timePeriodBlock (df : DataFrame) :
    nOpen (timePeriodBlock true df) = nClose (timePeriodBlock true df) := by
  unfold timePeriodBlock
  split
  · dsimp only
    split
    · simp [nOpen, nClose, save_plot, save_dataframe_as_text, List.filter,
        isOpenFig, isCloseFig]
    · simp [nOpen, nClose, List.filter, isOpenFig, isCloseFig]
  · simp [nOpen, nClose, List.filter, isOpenFig, isCloseFig]

theorem balanced_postTypeBlock (sq : ℚ → ℚ) (df : DataFrame) :
    nOpen (postTypeBlock sq true df) = nClose (postTypeBlock sq true df) := by
  unfold postTypeBlock
  split
  · exact balanced_seqT (balanced_type sq df _ _ _ _)
      (balanced_seqT (balanced_type sq df _ _ _ _)
        (balanced_seqT (balanced_type sq df _ _ _ _)
          (balanced_type sq df _ _ _ _)))
  · simp [nOpen, nClose, List.filter, isOpenFig, isCloseFig]

theorem balanced_engagementBlock (sq : ℚ → ℚ) (df : DataFrame) :
    nOpen (engagementBlock sq true df) = nClose (engagementBlock sq true df) := by
  unfold engagementBlock
  split
  · exact balanced_seqT (balanced_engagement sq df _ _ _)
      (balanced_engagement sq df _ _ _)
  · simp [nOpen, nClose, List.filter, isOpenFig, isCloseFig]

theorem balanced_generate (sq : ℚ → ℚ) (kdeF : List ℚ → ℚ → ℚ)
    (numF boolF : List String) (df : DataFrame) :
    nOpen (generate_all_eda_plots sq kdeF true numF boolF df) =
    nClose (generate_all_eda_plots sq kdeF true numF boolF df) := by
  have hlog : ∀ (lvl : LogLvl) (m : String),
      nOpen [Eff.log lvl m] = nClose [Eff.log lvl m] := by
    intro lvl m
    simp [nOpen, nClose, List.filter, isOpenFig, isCloseFig]
  unfold generate_all_eda_plots
  rw [nOpen_append, nClose_append, hlog]
  congr 1
  split
  · exact hlog _ _
  · rw [nOpen_append, nClose_append, hlog]
    congr 1
    refine balanced_seqT (balanced_featdist sq kdeF df _ _ _ _ _)
      (balanced_seqT (balanced_featdist sq kdeF df _ _ _ _ _)
        (balanced_seqT (balanced_featdist sq kdeF df _ _ _ _ _) ?_))
    rw [nOpen_append, nClose_append, hlog]
    congr 1
    refine balanced_seqT (balanced_distcomp sq df _ _ _ _ _)
      (balanced_seqT (balanced_distcomp sq df _ _ _ _ _)
        (balanced_seqT (balanced_distcomp sq df _ _ _ _ _) ?_))
    rw [nOpen_append, nClose_append, hlog]
    congr 1
    refine balanced_seqT (balanced_timePeriodBlock df)
      (balanced_seqT (balanced_time sq df _ _ _ _)
        (balanced_seqT (balanced_time sq df _ _ _ _) ?_))
    rw [nOpen_append, nClose_append, hlog]
    congr 1
    refine balanced_seqT (balanced_postTypeBlock sq df) ?_
    rw [nOpen_append, nClose_append, hlog]
    congr 1
    refine balanced_seqT (balanced_pearson sq numF boolF df _) ?_
    rw [nOpen_append, nClose_append, hlog]
    congr 1
    exact balanced_seqT (balanced_engagementBlock sq df) (hlog _ _)


end BA

namespace BA

/-- C9 (amended): when every disk write succeeds, each view (and the
full orchestration) closes every drawing surface it opens before
returning, including the invalid-plot-type path; but `save_plot` has
no protection around `fig.savefig`, so when the write raises, the
exception propagates before `plt.close` and the figure stays open. -/
theorem claim9_figures_closed (sq : ℚ → ℚ) (kdeF : List ℚ → ℚ → ℚ)
    (df : DataFrame) (metric feature fpre title y_label x_label hue_label
      filename plot_type tc ec : String) (sel : Option (List Val))
    (bin_count : ℕ) (numF boolF : List String) :
    (nOpen (plot_average_metric_by_time_and_event sq true df metric fpre
        title y_label) =
      nClose (plot_average_metric_by_time_and_event sq true df metric fpre
        title y_label)) ∧
    (nOpen (plot_metric_by_event_and_type sq true df metric title filename
        sel) =
      nClose (plot_metric_by_event_and_type sq true df metric title filename
        sel)) ∧
    (nOpen (plot_feature_distribution sq kdeF true df feature title x_label
        bin_count fpre) =
      nClose (plot_feature_distribution sq kdeF true df feature title x_label
        bin_count fpre)) ∧
    (nOpen (plot_distribution_comparison sq true df feature title y_label
        fpre plot_type) =
      nClose (plot_distribution_comparison sq true df feature title y_label
        fpre plot_type)) ∧
    (nOpen (plot_posting_behavior_hist true df x_label hue_label title
        filename) =
      nClose (plot_posting_behavior_hist true df x_label hue_label title
        filename)) ∧
    (nOpen (plot_posting_behavior_heatmap true df title filename) =
      nClose (plot_posting_behavior_heatmap true df title filename)) ∧
    (nOpen (plot_score_development true df x_label y_label hue_label title
        filename) =
      nClose (plot_score_development true df x_label y_label hue_label title
        filename)) ∧
    (nOpen (plot_pearson_correlation sq true numF boolF df filename) =
      nClose (plot_pearson_correlation sq true numF boolF df filename)) ∧
    (nOpen (plot_engagement_per_day sq true df tc ec filename) =
      nClose (plot_engagement_per_day sq true df tc ec filename)) ∧
    (nOpen (timePeriodBlock true df) = nClose (timePeriodBlock true df)) ∧
    (nOpen (generate_all_eda_plots sq kdeF true numF boolF df) =
      nClose (generate_all_eda_plots sq kdeF true numF boolF df)) :=
  ⟨balanced_time sq df metric fpre title y_label,
   balanced_type sq df metric title filename sel,
   balanced_featdist sq kdeF df feature title x_label bin_count fpre,
   balanced_distcomp sq df feature title y_label fpre plot_type,
   balanced_hist df x_label hue_label title filename,
   balanced_heatmap df title filename,
   balanced_score df x_label y_label hue_label title filename,
   balanced_pearson sq numF boolF df filename,
   balanced_engagement sq df tc ec filename,
   balanced_timePeriodBlock df,
   balanced_generate sq kdeF numF boolF df⟩

/-- C9 counterexample: when the image write fails, the exception
propagates out of `save_plot` before the close call, leaving the
figure open, so the release does not happen regardless of write
success. -/
theorem claim9_counterexample :
    plot_posting_behavior_heatmap false dfOneRow "T" "f.png" =
      [.openFig, .raised] ∧
    nOpen (plot_posting_behavior_heatmap false dfOneRow "T" "f.png") = 1 ∧
    nClose (plot_posting_behavior_heatmap false dfOneRow "T" "f.png") = 0 := by
  decide

end BA

namespace BA

theorem seqT_eq {t : List Eff} (r : List Eff) (h : Eff.raised ∉ t) :
    seqT t r = t ++ r := by
  unfold seqT
  rw [if_neg h]

theorem not_raised_save_plot (f : String) (img : ImageData) :
    Eff.raised ∉ save_plot true f img := by
  simp [save_plot]

theorem not_raised_time (sq : ℚ → ℚ) (df : DataFrame)
    (metric fpre title y_label : String) :
    Eff.raised ∉ plot_average_metric_by_time_and_event sq true df metric fpre
      title y_label := by
  by_cases h1 : hasCols df [metric, "event_name", "time_period"] = true
  · by_cases h2 : (dropna df [metric, "event_name", "time_period"]).rows.isEmpty = false
    · rw [time_view_spec sq true df metric fpre title y_label h1 h2]
      simp [save_plot, save_dataframe_as_text]
    · rw [time_view_empty sq true df metric fpre title y_label h1
        (by simpa using h2)]
      simp
  · rw [time_view_missing sq true df metric fpre title y_label
      (by simpa using h1)]
    simp

theorem not_raised_type (sq : ℚ → ℚ) (df : DataFrame)
    (metric title filename : String) (sel : Option (List Val)) :
    Eff.raised ∉ plot_metric_by_event_and_type sq true df metric title
      filename sel := by
  by_cases h1 : hasCols df [metric, "event_name", "post_type"] = true
  · by_cases h2 : (applySel sel (dropna df [metric, "event_name", "post_type"])).rows.isEmpty = false
    · rw [type_view_spec sq true df metric title filename sel h1 h2]
      simp [save_plot, save_dataframe_as_text]
    · rw [type_view_empty sq true df metric title filename sel h1
        (by simpa using h2)]
      simp
  · rw [type_view_missing sq true df metric title filename sel
      (by simpa using h1)]
    simp

theorem not_raised_distcomp (sq : ℚ → ℚ) (df : DataFrame)
    (feature title y_label fpre plot_type : String) :
    Eff.raised ∉ plot_distribution_comparison sq true df feature title
      y_label fpre plot_type := by
  by_cases h1 : hasCols df [feature, "event_name"] = true
  · by_cases h2 : (dropna df [feature, "event_name"]).rows.isEmpty = false
    · by_cases hv : plot_type = "violin"
      · subst hv
        rw [dist_comp_violin sq true df feature title y_label fpre h1 h2]
        simp [save_plot, save_dataframe_as_text]
      · by_cases hb : plot_type = "box"
        · subst hb
          rw [dist_comp_box sq true df feature title y_label fpre h1 h2]
          simp [save_plot, save_dataframe_as_text]
        · rw [dist_comp_bad_type sq true df feature title y_label fpre
            plot_type h1 h2 hv hb]
          simp [save_dataframe_as_text]
    · rw [dist_comp_empty sq true df feature title y_label fpre plot_type h1
        (by simpa using h2)]
      simp
  · rw [dist_comp_missing sq true df feature title y_label fpre plot_type
      (by simpa using h1)]
    simp

theorem not_raised_tpblock (df : DataFrame) :
    Eff.raised ∉ timePeriodBlock true df := by
  unfold timePeriodBlock
  split
  · dsimp only
    split
    · simp [save_plot, save_dataframe_as_text]
    · simp
  · simp

theorem not_raised_pearson (sq : ℚ → ℚ) (numF boolF : List String)
    (df : DataFrame) (filename : String) :
    Eff.raised ∉ plot_pearson_correlation sq true numF boolF df filename := by
  unfold plot_pearson_correlation
  split
  · simp
  · dsimp only
    split
    · simp
    · simp [save_plot]

theorem not_raised_engagement (sq : ℚ → ℚ) (df : DataFrame)
    (tc ec filename : String) :
    Eff.raised ∉ plot_engagement_per_day sq true df tc ec filename := by
  by_cases h1 : hasCols df [tc, ec, "event_name"] = true
  · by_cases h2 : (dropna df [tc, ec, "event_name"]).rows.isEmpty = false
    · rw [engagement_spec sq true df tc ec filename h1 h2]
      simp [save_plot]
    · rw [engagement_empty sq true df tc ec filename h1 (by simpa using h2)]
      simp
  · rw [engagement_missing sq true df tc ec filename (by simpa using h1)]
    simp

theorem textWrites_time (sq : ℚ → ℚ) (ok : Bool) (df : DataFrame)
    (metric fpre title y_label p : String)
    (hp : p ≠ fpre ++ "_by_time_period_and_event.txt") :
    textWrites (plot_average_metric_by_time_and_event sq ok df metric fpre
      title y_label) p = [] := by
  by_cases h1 : hasCols df [metric, "event_name", "time_period"] = true
  · by_cases h2 : (dropna df [metric, "event_name", "time_period"]).rows.isEmpty = false
    · rw [time_view_spec sq ok df metric fpre title y_label h1 h2]
      simp only [textWrites_append, textWrites_save_plot]
      simp [textWrites, save_dataframe_as_text, List.filterMap_cons, Ne.symm hp]
    · rw [time_view_empty sq ok df metric fpre title y_label h1
        (by simpa using h2)]
      simp [textWrites]
  · rw [time_view_missing sq ok df metric fpre title y_label
      (by simpa using h1)]
    simp [textWrites]

theorem textWrites_type_ne (sq : ℚ → ℚ) (ok : Bool) (df : DataFrame)
    (metric title filename p : String) (sel : Option (List Val))
    (hp : p ≠ metric ++ "_by_post_type_and_event.txt") :
    textWrites (plot_metric_by_event_and_type sq ok df metric title filename
      sel) p = [] := by
  by_cases h1 : hasCols df [metric, "event_name", "post_type"] = true
  · by_cases h2 : (applySel sel (dropna df [metric, "event_name", "post_type"])).rows.isEmpty = false
    · rw [type_view_spec sq ok df metric title filename sel h1 h2]
      simp only [textWrites_append, textWrites_save_plot]
      simp [textWrites, save_dataframe_as_text, List.filterMap_cons, Ne.symm hp]
    · rw [type_view_empty sq ok df metric title filename sel h1
        (by simpa using h2)]
      simp [textWrites]
  · rw [type_view_missing sq ok df metric title filename sel
      (by simpa using h1)]
    simp [textWrites]

theorem textWrites_type_pos (sq : ℚ → ℚ) (ok : Bool) (df : DataFrame)
    (metric title filename : String) (sel : Option (List Val))
    (h1 : hasCols df [metric, "event_name", "post_type"] = true)
    (h2 : (applySel sel (dropna df [metric, "event_name", "post_type"])).rows.isEmpty = false) :
    textWrites (plot_metric_by_event_and_type sq ok df metric title filename
      sel) (metric ++ "_by_post_type_and_event.txt") =
      [typeEventTable sq df metric sel] := by
  rw [type_view_spec sq ok df metric title filename sel h1 h2]
  simp only [textWrites_append, textWrites_save_plot]
  simp [textWrites, save_dataframe_as_text, List.filterMap_cons]

theorem textWrites_featdist (sq : ℚ → ℚ) (kdeF : List ℚ → ℚ → ℚ) (ok : Bool)
    (df : DataFrame) (feature title x_label : String) (bin_count : ℕ)
    (fpre p : String) (hp1 : p ≠ fpre ++ feature ++ "_summary.txt")
    (hp2 : p ≠ fpre ++ feature ++ "_kde_curve.txt") :
    textWrites (plot_feature_distribution sq kdeF ok df feature title x_label
      bin_count fpre) p = [] := by
  by_cases h1 : df.cols.contains feature = true
  · by_cases h0 : (colValsQ df feature).isEmpty = false
    · by_cases h2 : 1 < (colValsQ df feature).length
      · by_cases h3 : allSame (colValsQ df feature) = true
        · rw [feat_dist_raise sq kdeF ok df feature title x_label bin_count
            fpre h1 h2 h3]
          simp only [textWrites_append]
          simp [textWrites, save_dataframe_as_text, List.filterMap_cons,
            Ne.symm hp1]
        · rw [feat_dist_kde sq kdeF ok df feature title x_label bin_count
            fpre h1 h2 (by simpa using h3)]
          simp only [textWrites_append, textWrites_save_plot,
            textWrites_featHistBranch]
          simp [textWrites, save_dataframe_as_text, List.filterMap_cons,
            Ne.symm hp1, Ne.symm hp2]
      · rw [feat_dist_short sq kdeF ok df feature title x_label bin_count
          fpre h1 h0 h2]
        simp only [textWrites_append, textWrites_save_plot,
          textWrites_featHistBranch]
        simp [textWrites, save_dataframe_as_text, List.filterMap_cons,
          Ne.symm hp1]
    · rw [feat_dist_novals sq kdeF ok df feature title x_label bin_count fpre
        h1 (by simpa using h0)]
      simp [textWrites]
  · rw [feat_dist_missing sq kdeF ok df feature title x_label bin_count fpre
      (by simpa using h1)]
    simp [textWrites]

theorem textWrites_distcomp (sq : ℚ → ℚ) (df : DataFrame)
    (feature title y_label fpre plot_type p : String)
    (hp : p ≠ fpre ++ feature ++ "_" ++ plot_type ++ "_stats.txt") :
    textWrites (plot_distribution_comparison sq true df feature title y_label
      fpre plot_type) p = [] := by
  by_cases h1 : hasCols df [feature, "event_name"] = true
  · by_cases h2 : (dropna df [feature, "event_name"]).rows.isEmpty = false
    · by_cases hv : plot_type = "violin"
      · subst hv
        rw [dist_comp_violin sq true df feature title y_label fpre h1 h2]
        simp only [textWrites_append, textWrites_save_plot]
        simp [textWrites, save_dataframe_as_text, List.filterMap_cons,
          Ne.symm hp]
      · by_cases hb : plot_type = "box"
        · subst hb
          rw [dist_comp_box sq true df feature title y_label fpre h1 h2]
          simp only [textWrites_append, textWrites_save_plot]
          simp [textWrites, save_dataframe_as_text, List.filterMap_cons,
            Ne.symm hp]
        · rw [dist_comp_bad_type sq true df feature title y_label fpre
            plot_type h1 h2 hv hb]
          simp only [textWrites_append]
          simp [textWrites, save_dataframe_as_text, List.filterMap_cons,
            Ne.symm hp]
    · rw [dist_comp_empty sq true df feature title y_label fpre plot_type h1
        (by simpa using h2)]
      simp [textWrites]
  · rw [dist_comp_missing sq true df feature title y_label fpre plot_type
      (by simpa using h1)]
    simp [textWrites]

theorem textWrites_tpblock (ok : Bool) (df : DataFrame) (p : String)
    (hp : p ≠ "comment_distribution_time_periods_table.txt") :
    textWrites (timePeriodBlock ok df) p = [] := by
  unfold timePeriodBlock
  split
  · dsimp only
    split
    · simp only [textWrites_append, textWrites_save_plot]
      simp [textWrites, save_dataframe_as_text, List.filterMap_cons,
        Ne.symm hp]
    · simp [textWrites]
  · simp [textWrites]

theorem textWrites_pearson (sq : ℚ → ℚ) (ok : Bool)
    (numF boolF : List String) (df : DataFrame) (filename p : String) :
    textWrites (plot_pearson_correlation sq ok numF boolF df filename) p = [] := by
  unfold plot_pearson_correlation
  split
  · simp [textWrites]
  · dsimp only
    split
    · simp [textWrites]
    · simp only [textWrites_append, textWrites_save_plot]
      simp [textWrites]

theorem textWrites_engagement (sq : ℚ → ℚ) (ok : Bool) (df : DataFrame)
    (tc ec filename p : String) :
    textWrites (plot_engagement_per_day sq ok df tc ec filename) p = [] := by
  by_cases h1 : hasCols df [tc, ec, "event_name"] = true
  · by_cases h2 : (dropna df [tc, ec, "event_name"]).rows.isEmpty = false
    · rw [engagement_spec sq ok df tc ec filename h1 h2]
      simp only [textWrites_append, textWrites_save_plot]
      simp [textWrites]
    · rw [engagement_empty sq ok df tc ec filename h1 (by simpa using h2)]
      simp [textWrites]
  · rw [engagement_missing sq ok df tc ec filename (by simpa using h1)]
    simp [textWrites]

theorem not_raised_engblock (sq : ℚ → ℚ) (df : DataFrame) :
    Eff.raised ∉ engagementBlock sq true df := by
  unfold engagementBlock
  split
  · rw [seqT_eq _ (not_raised_engagement sq df _ _ _)]
    simp only [List.mem_append]
    push_neg
    exact ⟨not_raised_engagement sq df _ _ _,
      not_raised_engagement sq df _ _ _⟩
  · simp

theorem not_raised_featdist (sq : ℚ → ℚ) (kdeF : List ℚ → ℚ → ℚ)
    (df : DataFrame) (feature title x_label : String) (bin_count : ℕ)
    (fpre : String) (h : allSame (colValsQ df feature) = false) :
    Eff.raised ∉ plot_feature_distribution sq kdeF true df feature title
      x_label bin_count fpre := by
  unfold plot_feature_distribution
  split
  · simp
  · dsimp only
    split
    · simp
    · split
      · split
        · next hs => rw [hs] at h; cases h
        · rcases featHistBranch_fst df feature (colValsQ df feature) bin_count
            with hf | hf <;>
          simp [save_dataframe_as_text, save_plot, hf]
      · rcases featHistBranch_fst df feature (colValsQ df feature) bin_count
          with hf | hf <;>
        simp [save_dataframe_as_text, save_plot, hf]

theorem textWrites_engblock (sq : ℚ → ℚ) (ok : Bool) (df : DataFrame)
    (p : String) :
    textWrites (engagementBlock sq ok df) p = [] := by
  unfold engagementBlock seqT
  split
  · split
    · exact textWrites_engagement sq ok df _ _ _ p
    · rw [textWrites_append, textWrites_engagement, textWrites_engagement]
      rfl
  · simp [textWrites]

end BA

namespace BA

/-- C10: the text-report path of the type-and-event view depends only
on the metric (always metric plus the fixed suffix), independent of
the filename argument and the allow-list; consequently the
orchestration's unfiltered and type-filtered word-count calls write
their tables to the same text path, the filtered (later) call
overwriting the earlier table, while their chart images go to
distinct paths. -/
theorem claim10_text_path_collision (sq : ℚ → ℚ) (kdeF : List ℚ → ℚ → ℚ)
    (df : DataFrame) (numF boolF : List String) :
    (∀ (ok : Bool) (metric title filename : String)
      (sel : Option (List Val)) (p t : String) (c : DataFrame),
      Eff.writeText p t c ∈
        plot_metric_by_event_and_type sq ok df metric title filename sel →
      p = metric ++ "_by_post_type_and_event.txt") ∧
    (df.rows.isEmpty = false →
      df.cols.contains "post_type" = true →
      df.cols.contains "event_name" = true →
      hasCols df ["word_count", "event_name", "post_type"] = true →
      (dropna df ["word_count", "event_name", "post_type"]).rows.isEmpty = false →
      (applySel (some selectedFourTypes)
        (dropna df ["word_count", "event_name", "post_type"])).rows.isEmpty = false →
      Eff.raised ∉ plot_feature_distribution sq kdeF true df
        "compound_sentiment" "Distribution of Compound Sentiment Score"
        "Compound Sentiment Score (-1 to 1)" 30 "dist_sentiment_" →
      Eff.raised ∉ plot_feature_distribution sq kdeF true df "comment_score"
        "Distribution of Comment Score" "Comment Score" 50
        "dist_comment_score_" →
      Eff.raised ∉ plot_feature_distribution sq kdeF true df "word_count"
        "Distribution of Comment Word Count" "Word Count" 50
        "dist_word_count_" →
      textWrites (generate_all_eda_plots sq kdeF true numF boolF df)
          ("word_count" ++ "_by_post_type_and_event.txt") =
        [typeEventTable sq df "word_count" none,
         typeEventTable sq df "word_count" (some selectedFourTypes)] ∧
      (textWrites (generate_all_eda_plots sq kdeF true numF boolF df)
          ("word_count" ++ "_by_post_type_and_event.txt")).getLast? =
        some (typeEventTable sq df "word_count" (some selectedFourTypes)) ∧
      ("avg_word_count_by_post_type.png" : String) ≠
        "filtered_avg_word_count_by_post_type_and_event.png" ∧
      Eff.writeImage "avg_word_count_by_post_type.png"
          (.bar (typeEventTable sq df "word_count" none) "post_type" "mean"
            "event_name" none) ∈
        generate_all_eda_plots sq kdeF true numF boolF df ∧
      Eff.writeImage "filtered_avg_word_count_by_post_type_and_event.png"
          (.bar (typeEventTable sq df "word_count" (some selectedFourTypes))
            "post_type" "mean" "event_name" none) ∈
        generate_all_eda_plots sq kdeF true numF boolF df) := by
  constructor
  · intro ok metric title filename sel p t c hmem
    by_cases h1 : hasCols df [metric, "event_name", "post_type"] = true
    · by_cases h2 : (applySel sel (dropna df [metric, "event_name", "post_type"])).rows.isEmpty = false
      · rw [type_view_spec sq ok df metric title filename sel h1 h2] at hmem
        rcases List.mem_append.mp hmem with hm | hm
        · rcases List.mem_append.mp hm with hm2 | hm2
          · simp [save_dataframe_as_text] at hm2
            exact hm2.1
          · simp at hm2
        · unfold save_plot at hm
          split at hm <;> simp at hm
      · rw [type_view_empty sq ok df metric title filename sel h1
          (by simpa using h2)] at hmem
        simp at hmem
    · rw [type_view_missing sq ok df metric title filename sel
        (by simpa using h1)] at hmem
      simp at hmem
  · intro hdf hpt hev hword hne1 hne2 hr1 hr2 hr3
    have hwc1 := type_view_spec sq true df "word_count"
      "Average Word Count by Post Type and Event"
      "avg_word_count_by_post_type.png" none hword hne1
    have hwc2 := type_view_spec sq true df "word_count"
      "Average Word Count by Selected Post Types and Event"
      "filtered_avg_word_count_by_post_type_and_event.png"
      (some selectedFourTypes) hword hne2
    have hgen : generate_all_eda_plots sq kdeF true numF boolF df =
        [.log .info "\n--- Generating Exploratory Data Analysis Plots ---"] ++
        ([.log .info "\n--- Generating Feature Distribution Plots ---"] ++
        (plot_feature_distribution sq kdeF true df "compound_sentiment"
          "Distribution of Compound Sentiment Score"
          "Compound Sentiment Score (-1 to 1)" 30 "dist_sentiment_" ++
        (plot_feature_distribution sq kdeF true df "comment_score"
          "Distribution of Comment Score" "Comment Score" 50
          "dist_comment_score_" ++
        (plot_feature_distribution sq kdeF true df "word_count"
          "Distribution of Comment Word Count" "Word Count" 50
          "dist_word_count_" ++
        ([.log .info "\n--- Generating Distribution Comparison Plots (Violin/Box) ---"] ++
        (plot_distribution_comparison sq true df "compound_sentiment"
          "Distribution of Compound Sentiment Score Across Events"
          "Compound Sentiment Score (-1 to 1)" "dist_comp_sentiment_" "violin" ++
        (plot_distribution_comparison sq true df "comment_score"
          "Distribution of Comment Score Across Events" "Comment Score"
          "dist_comp_comment_score_" "violin" ++
        (plot_distribution_comparison sq true df "word_count"
          "Distribution of Comment Word Count Across Events" "Word Count"
          "dist_comp_word_count_" "violin" ++
        ([.log .info "\n--- Generating Time Period Analysis Plots ---"] ++
        (timePeriodBlock true df ++
        (plot_average_metric_by_time_and_event sq true df
          "compound_sentiment" "avg_sentiment"
          "Average Compound Sentiment by Time Period and Event"
          "Average Compound Sentiment Score" ++
        (plot_average_metric_by_time_and_event sq true df "comment_score"
          "avg_comment_score" "Average Comment Score by Time Period and Event"
          "Average Comment Score" ++
        ([.log .info "\n--- Generating Engagement by Post Type Plots ---"] ++
        ((plot_metric_by_event_and_type sq true df "comment_score"
          "Average Comment Score by Post Type and Event"
          "avg_comment_score_by_post_type.png" none ++
         (plot_metric_by_event_and_type sq true df "compound_sentiment"
          "Average Compound Sentiment by Post Type and Event"
          "avg_sentiment_by_post_type.png" none ++
         (plot_metric_by_event_and_type sq true df "word_count"
          "Average Word Count by Post Type and Event"
          "avg_word_count_by_post_type.png" none ++
         plot_metric_by_event_and_type sq true df "word_count"
          "Average Word Count by Selected Post Types and Event"
          "filtered_avg_word_count_by_post_type_and_event.png"
          (some selectedFourTypes)))) ++
        ([.log .info "\n--- Generating Pearson Correlation Matrix ---"] ++
        (plot_pearson_correlation sq true numF boolF df
          "pearson_correlation_matrix.png" ++
        ([.log .info "\n--- Generating Additional Specific Plots ---"] ++
        (engagementBlock sq true df ++
        [.log .info "\n--- All EDA Plots Generated ---"])))))))))))))))))) := by
      unfold generate_all_eda_plots postTypeBlock
      rw [if_neg (by simp [hdf])]
      rw [if_pos (by rw [hpt, hev]; rfl :
        (df.cols.contains "post_type" && df.cols.contains "event_name") = true)]
      rw [seqT_eq _ hr1, seqT_eq _ hr2, seqT_eq _ hr3,
        seqT_eq _ (not_raised_distcomp sq df _ _ _ _ _),
        seqT_eq _ (not_raised_distcomp sq df _ _ _ _ _),
        seqT_eq _ (not_raised_distcomp sq df _ _ _ _ _),
        seqT_eq _ (not_raised_tpblock df),
        seqT_eq _ (not_raised_time sq df _ _ _ _),
        seqT_eq _ (not_raised_time sq df _ _ _ _),
        seqT_eq _ (not_raised_type sq df _ _ _ _),
        seqT_eq _ (not_raised_type sq df _ _ _ _),
        seqT_eq _ (not_raised_type sq df _ _ _ _),
        seqT_eq _ (not_raised_pearson sq numF boolF df _)]
      have hptb : Eff.raised ∉
          (plot_metric_by_event_and_type sq true df "comment_score"
            "Average Comment Score by Post Type and Event"
            "avg_comment_score_by_post_type.png" none ++
          (plot_metric_by_event_and_type sq true df "compound_sentiment"
            "Average Compound Sentiment by Post Type and Event"
            "avg_sentiment_by_post_type.png" none ++
          (plot_metric_by_event_and_type sq true df "word_count"
            "Average Word Count by Post Type and Event"
            "avg_word_count_by_post_type.png" none ++
          plot_metric_by_event_and_type sq true df "word_count"
            "Average Word Count by Selected Post Types and Event"
            "filtered_avg_word_count_by_post_type_and_event.png"
            (some selectedFourTypes)))) := by
        simp only [List.mem_append]
        push_neg
        exact ⟨not_raised_type sq df _ _ _ _, not_raised_type sq df _ _ _ _,
          not_raised_type sq df _ _ _ _, not_raised_type sq df _ _ _ _⟩
      rw [seqT_eq _ hptb]
      rw [seqT_eq _ (not_raised_engblock sq df)]
    have hTW : textWrites (generate_all_eda_plots sq kdeF true numF boolF df)
        ("word_count" ++ "_by_post_type_and_event.txt") =
        [typeEventTable sq df "word_count" none,
         typeEventTable sq df "word_count" (some selectedFourTypes)] := by
      rw [hgen]
      simp only [textWrites_append]
      rw [textWrites_featdist sq kdeF true df "compound_sentiment"
            "Distribution of Compound Sentiment Score"
            "Compound Sentiment Score (-1 to 1)" 30 "dist_sentiment_"
            ("word_count" ++ "_by_post_type_and_event.txt")
            (by decide) (by decide),
          textWrites_featdist sq kdeF true df "comment_score"
            "Distribution of Comment Score" "Comment Score" 50
            "dist_comment_score_"
            ("word_count" ++ "_by_post_type_and_event.txt")
            (by decide) (by decide),
          textWrites_featdist sq kdeF true df "word_count"
            "Distribution of Comment Word Count" "Word Count" 50
            "dist_word_count_"
            ("word_count" ++ "_by_post_type_and_event.txt")
            (by decide) (by decide),
          textWrites_distcomp sq df "compound_sentiment"
            "Distribution of Compound Sentiment Score Across Events"
            "Compound Sentiment Score (-1 to 1)" "dist_comp_sentiment_"
            "violin" ("word_count" ++ "_by_post_type_and_event.txt")
            (by decide),
          textWrites_distcomp sq df "comment_score"
            "Distribution of Comment Score Across Events" "Comment Score"
            "dist_comp_comment_score_" "violin"
            ("word_count" ++ "_by_post_type_and_event.txt") (by decide),
          textWrites_distcomp sq df "word_count"
            "Distribution of Comment Word Count Across Events" "Word Count"
            "dist_comp_word_count_" "violin"
            ("word_count" ++ "_by_post_type_and_event.txt") (by decide),
          textWrites_tpblock true df
            ("word_count" ++ "_by_post_type_and_event.txt") (by decide),
          textWrites_time sq true df "compound_sentiment" "avg_sentiment"
            "Average Compound Sentiment by Time Period and Event"
            "Average Compound Sentiment Score"
            ("word_count" ++ "_by_post_type_and_event.txt") (by decide),
          textWrites_time sq true df "comment_score" "avg_comment_score"
            "Average Comment Score by Time Period and Event"
            "Average Comment Score"
            ("word_count" ++ "_by_post_type_and_event.txt") (by decide),
          textWrites_type_ne sq true df "comment_score"
            "Average Comment Score by Post Type and Event"
            "avg_comment_score_by_post_type.png"
            ("word_count" ++ "_by_post_type_and_event.txt") none (by decide),
          textWrites_type_ne sq true df "compound_sentiment"
            "Average Compound Sentiment by Post Type and Event"
            "avg_sentiment_by_post_type.png"
            ("word_count" ++ "_by_post_type_and_event.txt") none (by decide),
          textWrites_type_pos sq true df "word_count"
            "Average Word Count by Post Type and Event"
            "avg_word_count_by_post_type.png" none hword hne1,
          textWrites_type_pos sq true df "word_count"
            "Average Word Count by Selected Post Types and Event"
            "filtered_avg_word_count_by_post_type_and_event.png"
            (some selectedFourTypes) hword hne2,
          textWrites_pearson sq true numF boolF df
            "pearson_correlation_matrix.png"
            ("word_count" ++ "_by_post_type_and_event.txt"),
          textWrites_engblock sq true df
            ("word_count" ++ "_by_post_type_and_event.txt")]
      simp [textWrites]
    have hm1 : Eff.writeImage "avg_word_count_by_post_type.png"
        (.bar (typeEventTable sq df "word_count" none) "post_type" "mean"
          "event_name" none) ∈
        plot_metric_by_event_and_type sq true df "word_count"
          "Average Word Count by Post Type and Event"
          "avg_word_count_by_post_type.png" none := by
      rw [hwc1]
      simp [save_plot]
    have hm2 : Eff.writeImage "filtered_avg_word_count_by_post_type_and_event.png"
        (.bar (typeEventTable sq df "word_count" (some selectedFourTypes))
          "post_type" "mean" "event_name" none) ∈
        plot_metric_by_event_and_type sq true df "word_count"
          "Average Word Count by Selected Post Types and Event"
          "filtered_avg_word_count_by_post_type_and_event.png"
          (some selectedFourTypes) := by
      rw [hwc2]
      simp [save_plot]
    refine ⟨hTW, by rw [hTW]; rfl, by decide, ?_, ?_⟩
    · rw [hgen]
      simp only [List.mem_append]
      tauto
    · rw [hgen]
      simp only [List.mem_append]
      tauto

/-- Witness for C10 at a concrete three-row dataset: the full run writes
both word-count type tables to the one shared text path, and the filtered
chart image is present. -/
theorem claim10_witness :
    textWrites (generate_all_eda_plots id kdeZero true [] [] dfFull)
        ("word_count" ++ "_by_post_type_and_event.txt") =
      [typeEventTable id dfFull "word_count" none,
       typeEventTable id dfFull "word_count" (some selectedFourTypes)] ∧
    Eff.writeImage "filtered_avg_word_count_by_post_type_and_event.png"
        (.bar (typeEventTable id dfFull "word_count" (some selectedFourTypes))
          "post_type" "mean" "event_name" none) ∈
      generate_all_eda_plots id kdeZero true [] [] dfFull := by
  have h := (claim10_text_path_collision id kdeZero dfFull [] []).2
    (by decide) (by decide) (by decide) (by decide) (by decide) (by decide)
    (not_raised_featdist id kdeZero dfFull "compound_sentiment"
      "Distribution of Compound Sentiment Score"
      "Compound Sentiment Score (-1 to 1)" 30 "dist_sentiment_" (by decide))
    (not_raised_featdist id kdeZero dfFull "comment_score"
      "Distribution of Comment Score" "Comment Score" 50
      "dist_comment_score_" (by decide))
    (not_raised_featdist id kdeZero dfFull "word_count"
      "Distribution of Comment Word Count" "Word Count" 50
      "dist_word_count_" (by decide))
  exact ⟨h.1, h.2.2.2.2⟩

end BA
